import Mathlib

set_option maxRecDepth 10000

/-!
Verification of the Rockchip OTP driver read paths (drivers/nvmem/rockchip-otp.c).

The driver is embedded shallowly: the hardware side (register responses, clock
and reset call results, status-poll outcomes, OTP cell contents) is an oracle
`OtpEnv`; the driver side is translated function by function from the C source.
Every externally visible action (clock enable/disable, reset pulse, register
write/read, power-mode transition write) is recorded in an event trace so that
ordering and cleanup properties can be stated.
-/

/-! ## Register map and constants, from the C header block -/

def OTPC_SBPI_CTRL : Nat := 0x0020
def OTPC_SBPI_CMD_VALID_PRE : Nat := 0x0024
def OTPC_SBPI_CMD0_OFFSET : Nat := 0x1000
def OTPC_SBPI_CMD1_OFFSET : Nat := 0x1004
def OTPC_USER_CTRL : Nat := 0x0100
def OTPC_USER_ADDR : Nat := 0x0104
def OTPC_USER_ENABLE : Nat := 0x0108
def OTPC_USER_Q : Nat := 0x0124
def OTPC_INT_STATUS : Nat := 0x0304
def OTPC_MODE_CTRL : Nat := 0x2000
def OTPC_IRQ_ST : Nat := 0x2008
def OTPC_ACCESS_ADDR : Nat := 0x200c
def OTPC_RD_DATA : Nat := 0x2010
def OTPC_REPR_RD_TRANS_NUM : Nat := 0x2020

def OTPC_DEEP_STANDBY : Nat := 0x0
def OTPC_STANDBY : Nat := 0x1
def OTPC_ACTIVE : Nat := 0x2
def OTPC_READ_ACCESS : Nat := 0x3
def OTPC_TRANS_NUM : Nat := 0x1
def OTPC_RDM_IRQ_ST : Nat := 1
def OTPC_STB2ACT_IRQ_ST : Nat := 128
def OTPC_DP2STB_IRQ_ST : Nat := 256
def OTPC_ACT2STB_IRQ_ST : Nat := 512
def OTPC_STB2DP_IRQ_ST : Nat := 1024
def RK3308BS_NBYTES : Nat := 4
def RK3308BS_NO_SECURE_OFFSET : Nat := 224

def OTPC_USER_ADDR_MASK : Nat := 0xFFFF0000
def OTPC_USE_USER : Nat := 1
def OTPC_USE_USER_MASK : Nat := 0x10000
def OTPC_USER_FSM_ENABLE : Nat := 1
def OTPC_USER_FSM_ENABLE_MASK : Nat := 0x10000
def OTPC_SBPI_DONE : Nat := 2
def OTPC_USER_DONE : Nat := 4

def SBPI_DAP_ADDR : Nat := 0x02
def SBPI_DAP_ADDR_SHIFT : Nat := 8
def SBPI_DAP_ADDR_MASK : Nat := 0xFF000000
def SBPI_CMD_VALID_MASK : Nat := 0xFFFF0000
def SBPI_DAP_CMD_WRF : Nat := 0xC0
def SBPI_DAP_REG_ECC : Nat := 0x3A
def SBPI_ECC_ENABLE : Nat := 0x00
def SBPI_ECC_DISABLE : Nat := 0x09
def SBPI_ENABLE : Nat := 1
def SBPI_ENABLE_MASK : Nat := 0x10000

def OTPC_TIMEOUT : Nat := 10000
def ENOMEM : Int := 12
def ETIMEDOUT : Int := 110

/-! ## The detailed status poller (claims about the wait routines) -/

/-- Modelled from the spec: the bounded busy-poll loop of
`readl_poll_timeout_atomic` (linux/iopoll.h, which is not under src/).
`seq t` is the status register value observed at elapsed time `t`; one read is
issued per time-unit, up to the timeout bound carried as `fuel`.  Returns the
error code together with the elapsed time at return. -/
def pollT (seq : Nat → Nat) (mask : Nat) : Nat → Nat → Int × Nat
  | 0, t => if seq t &&& mask ≠ 0 then (0, t) else (-ETIMEDOUT, t)
  | fuel+1, t => if seq t &&& mask ≠ 0 then (0, t) else pollT seq mask fuel (t+1)

/-- Modelled from the spec: poll every `delay` time-units for at most
`timeoutUnits` time-units total. -/
def readl_poll_timeout_atomic (seq : Nat → Nat) (mask delay timeoutUnits : Nat) :
    Int × Nat :=
  pollT seq mask (timeoutUnits / delay) 0

/-- `px30_otp_wait_status`: poll OTPC_INT_STATUS for `flag`; on success
acknowledge by writing `flag` back.  Result: (return code, elapsed time,
register writes performed). -/
def px30_otp_wait_status (seq : Nat → Nat) (flag : Nat) :
    Int × Nat × List (Nat × Nat) :=
  let r := readl_poll_timeout_atomic seq flag 1 OTPC_TIMEOUT
  if r.1 ≠ 0 then (r.1, r.2, [])
  else (0, r.2, [(OTPC_INT_STATUS, flag)])

/-- `rk3308bs_otp_wait_status`: same protocol on OTPC_IRQ_ST. -/
def rk3308bs_otp_wait_status (seq : Nat → Nat) (flag : Nat) :
    Int × Nat × List (Nat × Nat) :=
  let r := readl_poll_timeout_atomic seq flag 1 OTPC_TIMEOUT
  if r.1 ≠ 0 then (r.1, r.2, [])
  else (0, r.2, [(OTPC_IRQ_ST, flag)])

/-- Modelled from the spec: the interrupt status registers are
write-one-to-clear — writing value `v` clears exactly the bits set in `v` and
leaves every other bit unchanged. -/
def w1cApply (s v : Nat) : Nat := s ^^^ (s &&& v)

/-! ## Trace-level model of the two read engines -/

/-- Externally visible actions of a read execution.  `modeWrite prev v` is a
write of `v` to OTPC_MODE_CTRL performed while the controller was in mode
`prev`. -/
inductive Event where
  | clkEnable : Nat → Event
  | clkDisable : Nat → Event
  | resetAssert : Event
  | resetDeassert : Event
  | regWrite : Nat → Nat → Event
  | regRead : Nat → Event
  | modeWrite : Nat → Nat → Event
deriving DecidableEq, Repr

/-- Hardware/oracle side: results of the external calls and the cell contents.
Clock domains are numbered 0 = clk (functional), 1 = pclk (bus),
2 = pclk_phy (PHY bus).  `poll n` is the outcome of the n-th status wait of
the execution, abstracting the bounded poll loop.  `word a` is the 32-bit
value OTPC_RD_DATA delivers after a read transaction at access address `a`;
`byteAt a` is the byte OTPC_USER_Q delivers after a user read of byte address
`a` (the low 16-bit field of OTPC_USER_ADDR). -/
structure OtpEnv where
  clkRet : Nat → Int
  rstAssertRet : Int
  rstDeassertRet : Int
  poll : Nat → Bool
  word : Nat → Nat
  byteAt : Nat → Nat
  initMode : Nat
  allocOk : Bool

/-- Execution state threaded through the driver: the event trace, the current
content of OTPC_MODE_CTRL, and how many status waits have run so far. -/
structure OtpState where
  trace : List Event
  mode : Nat
  pollIdx : Nat
deriving Repr

def emit (e : Event) (s : OtpState) : OtpState :=
  { s with trace := s.trace ++ [e] }

/-- `clk_prepare_enable`: the enable takes effect only when the call does not
fail. -/
def clk_prepare_enable (env : OtpEnv) (c : Nat) (s : OtpState) : Int × OtpState :=
  if env.clkRet c < 0 then (env.clkRet c, s)
  else (env.clkRet c, emit (Event.clkEnable c) s)

def clk_disable_unprepare (c : Nat) (s : OtpState) : OtpState :=
  emit (Event.clkDisable c) s

/-- `rockchip_otp_reset`: assert, hold, deassert; either step may fail. -/
def rockchip_otp_reset (env : OtpEnv) (s : OtpState) : Int × OtpState :=
  if env.rstAssertRet ≠ 0 then (env.rstAssertRet, s)
  else
    let s1 := emit Event.resetAssert s
    if env.rstDeassertRet ≠ 0 then (env.rstDeassertRet, s1)
    else (0, emit Event.resetDeassert s1)

/-- One status wait inside a read path, abstracting `*_otp_wait_status`:
`env.poll` supplies the outcome of the n-th wait in program order; a
successful wait acknowledges by writing the flag to the status register. -/
def waitStep (env : OtpEnv) (reg flag : Nat) (s : OtpState) : Int × OtpState :=
  if env.poll s.pollIdx
  then (0, emit (Event.regWrite reg flag) { s with pollIdx := s.pollIdx + 1 })
  else (-ETIMEDOUT, { s with pollIdx := s.pollIdx + 1 })

/-- A write to OTPC_MODE_CTRL, recording the mode the controller held before. -/
def writeMode (v : Nat) (s : OtpState) : OtpState :=
  { emit (Event.modeWrite s.mode v) s with mode := v }

/-- Tail of `rk3308bs_otp_active` shared by the deep-standby (fallthrough) and
standby entries: standby → active. -/
def activeFromStandby (env : OtpEnv) (s : OtpState) : Int × OtpState :=
  let s1 := writeMode OTPC_ACTIVE s
  let r := waitStep env OTPC_IRQ_ST OTPC_STB2ACT_IRQ_ST s1
  if r.1 < 0 then (r.1, r.2) else (0, r.2)

/-- `rk3308bs_otp_active`: switch on the current mode with fallthrough. -/
def rk3308bs_otp_active (env : OtpEnv) (s : OtpState) : Int × OtpState :=
  if s.mode = OTPC_DEEP_STANDBY then
    let s1 := writeMode OTPC_STANDBY s
    let r := waitStep env OTPC_IRQ_ST OTPC_DP2STB_IRQ_ST s1
    if r.1 < 0 then (r.1, r.2) else activeFromStandby env r.2
  else if s.mode = OTPC_STANDBY then activeFromStandby env s
  else (0, s)

/-- Tail of `rk3308bs_otp_standby`: standby → deep-standby. -/
def standbyFromStandby (env : OtpEnv) (s : OtpState) : Int × OtpState :=
  let s1 := writeMode OTPC_DEEP_STANDBY s
  let r := waitStep env OTPC_IRQ_ST OTPC_STB2DP_IRQ_ST s1
  if r.1 < 0 then (r.1, r.2) else (0, r.2)

/-- `rk3308bs_otp_standby`: switch on the current mode with fallthrough. -/
def rk3308bs_otp_standby (env : OtpEnv) (s : OtpState) : Int × OtpState :=
  if s.mode = OTPC_ACTIVE then
    let s1 := writeMode OTPC_STANDBY s
    let r := waitStep env OTPC_IRQ_ST OTPC_ACT2STB_IRQ_ST s1
    if r.1 < 0 then (r.1, r.2) else standbyFromStandby env r.2
  else if s.mode = OTPC_STANDBY then standbyFromStandby env s
  else (0, s)

/-- Little-endian bytes of a 32-bit word, as memcpy of a u32 lays them out. -/
def bytesLE4 (v : Nat) : List Nat :=
  [v % 256, v / 256 % 256, v / 65536 % 256, v / 16777216 % 256]

/-- The per-word read loop of `rk3308bs_otp_read` (`while (addr_len--)`).
Returns the loop's final return code, the scratch-buffer content written so
far, and the final state.  After a successful RDM acknowledgement the
completed read transaction leaves the controller back in active mode. -/
def readLoop (env : OtpEnv) : Nat → Nat → OtpState → Int × List Nat × OtpState
  | 0, _, s => (0, [], s)
  | n+1, a, s =>
    let s1 := emit (Event.regWrite OTPC_REPR_RD_TRANS_NUM OTPC_TRANS_NUM) s
    let s2 := emit (Event.regWrite OTPC_ACCESS_ADDR a) s1
    let s3 := writeMode OTPC_READ_ACCESS s2
    let r := waitStep env OTPC_IRQ_ST OTPC_RDM_IRQ_ST s3
    if r.1 < 0 then (r.1, [], r.2)
    else
      let s4 := { emit (Event.regRead OTPC_RD_DATA) r.2 with mode := OTPC_ACTIVE }
      let rest := readLoop env n (a+1) s4
      (rest.1, bytesLE4 (env.word a) ++ rest.2.1, rest.2.2)

/-- The label chain `opt_pclk_phy`/`opt_pclk`/`otp_clk`: disable all three
clock domains in reverse order. -/
def release_all (s : OtpState) : OtpState :=
  clk_disable_unprepare 0 (clk_disable_unprepare 1 (clk_disable_unprepare 2 s))

/-- The label chain `opt_pclk`/`otp_clk`. -/
def release_pclk (s : OtpState) : OtpState :=
  clk_disable_unprepare 0 (clk_disable_unprepare 1 s)

/-- The `read_end` label of `rk3308bs_otp_read`: kfree the scratch buffer,
walk the mode machine down, then fall into the clock release chain. -/
def read_end (env : OtpEnv) (s : OtpState) : OtpState :=
  release_all (rk3308bs_otp_standby env s).2

/-- `rk3308bs_otp_read` (variant B).  Result: (return code, bytes memcpy'd
into the caller's buffer, event trace). -/
def rk3308bs_otp_read (env : OtpEnv) (offset bytes size : Nat) :
    Int × List Nat × List Event :=
  if size ≤ offset then (-ENOMEM, [], [])
  else
    let nbytes := if size < offset + bytes then size - offset else bytes
    let s0 : OtpState := ⟨[], env.initMode, 0⟩
    let e0 := clk_prepare_enable env 0 s0
    if e0.1 < 0 then (e0.1, [], e0.2.trace) else
    let e1 := clk_prepare_enable env 1 e0.2
    if e1.1 < 0 then (e1.1, [], (clk_disable_unprepare 0 e1.2).trace) else
    let e2 := clk_prepare_enable env 2 e1.2
    if e2.1 < 0 then (e2.1, [], (release_pclk e2.2).trace) else
    let er := rockchip_otp_reset env e2.2
    if er.1 ≠ 0 then (er.1, [], (release_all er.2).trace) else
    let ea := rk3308bs_otp_active env er.2
    if ea.1 ≠ 0 then (ea.1, [], (release_all ea.2).trace) else
    let addr_start := offset / RK3308BS_NBYTES
    let addr_end := (offset + nbytes + (RK3308BS_NBYTES - 1)) / RK3308BS_NBYTES
    let addr_offset := offset % RK3308BS_NBYTES
    let addr_len := addr_end - addr_start
    if env.allocOk = false then (-ENOMEM, [], (read_end env ea.2).trace) else
    let lr := readLoop env addr_len (addr_start + RK3308BS_NO_SECURE_OFFSET) ea.2
    if lr.1 < 0 then (lr.1, [], (read_end env lr.2.2).trace)
    else (lr.1, (lr.2.1.drop addr_offset).take nbytes, (read_end env lr.2.2).trace)

/-- `px30_otp_ecc_enable`: serialized SBPI command sequence followed by a
status wait for SBPI done. -/
def px30_otp_ecc_enable (env : OtpEnv) (enable : Bool) (s : OtpState) :
    Int × OtpState :=
  let s1 := emit (Event.regWrite OTPC_SBPI_CTRL
    (SBPI_DAP_ADDR_MASK ||| (SBPI_DAP_ADDR <<< SBPI_DAP_ADDR_SHIFT))) s
  let s2 := emit (Event.regWrite OTPC_SBPI_CMD_VALID_PRE
    (SBPI_CMD_VALID_MASK ||| 1)) s1
  let s3 := emit (Event.regWrite OTPC_SBPI_CMD0_OFFSET
    (SBPI_DAP_CMD_WRF ||| SBPI_DAP_REG_ECC)) s2
  let s4 := emit (Event.regWrite OTPC_SBPI_CMD1_OFFSET
    (if enable then SBPI_ECC_ENABLE else SBPI_ECC_DISABLE)) s3
  let s5 := emit (Event.regWrite OTPC_SBPI_CTRL
    (SBPI_ENABLE_MASK ||| SBPI_ENABLE)) s4
  waitStep env OTPC_INT_STATUS OTPC_SBPI_DONE s5

/-- The per-byte read loop of `px30_otp_read` (`while (bytes--)`), carrying
the running byte offset (`offset++` on a 32-bit unsigned).  OTPC_USER_Q
delivers the OTP byte selected by the low 16-bit address field just written. -/
def px30_read_loop (env : OtpEnv) : Nat → Nat → OtpState → Int × List Nat × OtpState
  | 0, _, s => (0, [], s)
  | n+1, off, s =>
    let s1 := emit (Event.regWrite OTPC_USER_ADDR
      (off % 4294967296 ||| OTPC_USER_ADDR_MASK)) s
    let s2 := emit (Event.regWrite OTPC_USER_ENABLE
      (OTPC_USER_FSM_ENABLE ||| OTPC_USER_FSM_ENABLE_MASK)) s1
    let r := waitStep env OTPC_INT_STATUS OTPC_USER_DONE s2
    if r.1 < 0 then (r.1, [], r.2)
    else
      let s3 := emit (Event.regRead OTPC_USER_Q) r.2
      let rest := px30_read_loop env n (off+1) s3
      (rest.1, env.byteAt (off % 65536) :: rest.2.1, rest.2.2)

/-- `px30_otp_read` (variant A).  Result: (return code, bytes written to the
caller's buffer, event trace).  Both the success path and a loop abort pass
through the `read_end` label clearing user mode, then release the clocks. -/
def px30_otp_read (env : OtpEnv) (offset bytes : Nat) :
    Int × List Nat × List Event :=
  let s0 : OtpState := ⟨[], env.initMode, 0⟩
  let e0 := clk_prepare_enable env 0 s0
  if e0.1 < 0 then (e0.1, [], e0.2.trace) else
  let e1 := clk_prepare_enable env 1 e0.2
  if e1.1 < 0 then (e1.1, [], (clk_disable_unprepare 0 e1.2).trace) else
  let e2 := clk_prepare_enable env 2 e1.2
  if e2.1 < 0 then (e2.1, [], (release_pclk e2.2).trace) else
  let er := rockchip_otp_reset env e2.2
  if er.1 ≠ 0 then (er.1, [], (release_all er.2).trace) else
  let ee := px30_otp_ecc_enable env false er.2
  if ee.1 < 0 then (ee.1, [], (release_all ee.2).trace) else
  let su := emit (Event.regWrite OTPC_USER_CTRL (OTPC_USE_USER ||| OTPC_USE_USER_MASK)) ee.2
  let lr := px30_read_loop env bytes offset su
  let se := emit (Event.regWrite OTPC_USER_CTRL OTPC_USE_USER_MASK) lr.2.2
  (lr.1, lr.2.1, (release_all se).trace)

/-! ## Trace extractors -/

def clkEnables (t : List Event) : List Nat :=
  t.filterMap fun e => match e with | Event.clkEnable c => some c | _ => none

def clkDisables (t : List Event) : List Nat :=
  t.filterMap fun e => match e with | Event.clkDisable c => some c | _ => none

def userAddrWrites (t : List Event) : List Nat :=
  t.filterMap fun e => match e with
    | Event.regWrite a v => if a = OTPC_USER_ADDR then some v else none
    | _ => none

def accessAddrWrites (t : List Event) : List Nat :=
  t.filterMap fun e => match e with
    | Event.regWrite a v => if a = OTPC_ACCESS_ADDR then some v else none
    | _ => none

def modeWriteValues (t : List Event) : List Nat :=
  t.filterMap fun e => match e with | Event.modeWrite _ v => some v | _ => none

def countReads (t : List Event) (reg : Nat) : Nat :=
  (t.filter fun e => e = Event.regRead reg).length

/-! ## The spec's word-window computation (for the refinement claim C1) -/

/-- Written from the claim's words, not from the source: clamp the length,
take the word window from `floor(offset/4) + 224` through
`ceil((offset + clamped)/4) - 1 + 224` inclusive, read those words in
ascending order, concatenate their little-endian bytes, and slice `clamped`
bytes starting at `offset mod 4`. -/
def specWindowBytes (env : OtpEnv) (offset len size : Nat) : List Nat :=
  let cl := min len (size - offset)
  let a := offset / 4 + RK3308BS_NO_SECURE_OFFSET
  let b := (offset + cl + 3) / 4 - 1 + RK3308BS_NO_SECURE_OFFSET
  (((((List.range (b + 1 - a)).map
      (fun k => bytesLE4 (env.word (a + k)))).flatten).drop (offset % 4)).take cl)

/-- Little-endian bytes of the words at access addresses `a, a+1, ...` —
the scratch-buffer content a fully successful read loop produces. -/
def wordsBytes (env : OtpEnv) : Nat → Nat → List Nat
  | 0, _ => []
  | n+1, a => bytesLE4 (env.word a) ++ wordsBytes env n (a+1)

/-! ## Poller lemmas -/

/-- Concrete fully-successful oracle used to instantiate witnesses. -/
def envAllOk : OtpEnv :=
  ⟨fun _ => 0, 0, 0, fun _ => true, fun a => a, fun a => a, 0, true⟩

/-- The events one fully successful pass of the word read loop emits,
starting from active mode. -/
def loopTraceB : Nat → Nat → List Event
  | 0, _ => []
  | n+1, a =>
    [Event.regWrite OTPC_REPR_RD_TRANS_NUM OTPC_TRANS_NUM,
     Event.regWrite OTPC_ACCESS_ADDR a,
     Event.modeWrite OTPC_ACTIVE OTPC_READ_ACCESS,
     Event.regWrite OTPC_IRQ_ST OTPC_RDM_IRQ_ST,
     Event.regRead OTPC_RD_DATA] ++ loopTraceB n (a+1)

/-- The SBPI command writes of `px30_otp_ecc_enable false` plus the SBPI-done
acknowledgement. -/
def eccTraceA : List Event :=
  [Event.regWrite OTPC_SBPI_CTRL
     (SBPI_DAP_ADDR_MASK ||| (SBPI_DAP_ADDR <<< SBPI_DAP_ADDR_SHIFT)),
   Event.regWrite OTPC_SBPI_CMD_VALID_PRE (SBPI_CMD_VALID_MASK ||| 1),
   Event.regWrite OTPC_SBPI_CMD0_OFFSET (SBPI_DAP_CMD_WRF ||| SBPI_DAP_REG_ECC),
   Event.regWrite OTPC_SBPI_CMD1_OFFSET SBPI_ECC_DISABLE,
   Event.regWrite OTPC_SBPI_CTRL (SBPI_ENABLE_MASK ||| SBPI_ENABLE),
   Event.regWrite OTPC_INT_STATUS OTPC_SBPI_DONE]

/-- The events one fully successful pass of the per-byte loop emits. -/
def px30LoopTrace : Nat → Nat → List Event
  | 0, _ => []
  | n+1, off =>
    [Event.regWrite OTPC_USER_ADDR (off % 4294967296 ||| OTPC_USER_ADDR_MASK),
     Event.regWrite OTPC_USER_ENABLE (OTPC_USER_FSM_ENABLE ||| OTPC_USER_FSM_ENABLE_MASK),
     Event.regWrite OTPC_INT_STATUS OTPC_USER_DONE,
     Event.regRead OTPC_USER_Q] ++ px30LoopTrace n (off+1)

/-- The bytes a fully successful per-byte loop delivers. -/
def px30Bytes (env : OtpEnv) : Nat → Nat → List Nat
  | 0, _ => []
  | n+1, off => env.byteAt (off % 65536) :: px30Bytes env n (off+1)

/-- Events that touch neither clock domain state. -/
def benign : Event → Prop
  | Event.clkEnable _ => False
  | Event.clkDisable _ => False
  | _ => True

/-- `s'` extends `s` by clock-neutral events only. -/
def BenignStep (s s' : OtpState) : Prop :=
  ∃ Δ, s'.trace = s.trace ++ Δ ∧ ∀ e ∈ Δ, benign e

/-- Oracle whose polls succeed twice (activation) and then time out. -/
def envB9 : OtpEnv :=
  ⟨fun _ => 0, 0, 0, fun n => decide (n < 2), fun a => a, fun a => a, 0, true⟩

/-- Oracle whose polls succeed twice (ECC wait and first byte) then time out. -/
def envA9 : OtpEnv :=
  ⟨fun _ => 0, 0, 0, fun n => decide (n ≤ 1), fun a => a, fun a => a, 0, true⟩

/-- Events the word read loop emits from active mode, for arbitrary poll
outcomes (`q` = index of the next status wait). -/
def loopTraceAny (env : OtpEnv) : Nat → Nat → Nat → List Event
  | 0, _, _ => []
  | n+1, a, q =>
    [Event.regWrite OTPC_REPR_RD_TRANS_NUM OTPC_TRANS_NUM,
     Event.regWrite OTPC_ACCESS_ADDR a,
     Event.modeWrite OTPC_ACTIVE OTPC_READ_ACCESS] ++
    (if env.poll q
     then [Event.regWrite OTPC_IRQ_ST OTPC_RDM_IRQ_ST, Event.regRead OTPC_RD_DATA]
       ++ loopTraceAny env n (a+1) (q+1)
     else [])

/-- Events the standby walk-down emits from mode `m`, for arbitrary poll
outcomes. -/
def standbyTraceAny (env : OtpEnv) (m q : Nat) : List Event :=
  if m = OTPC_ACTIVE then
    [Event.modeWrite OTPC_ACTIVE OTPC_STANDBY] ++
    (if env.poll q
     then [Event.regWrite OTPC_IRQ_ST OTPC_ACT2STB_IRQ_ST,
           Event.modeWrite OTPC_STANDBY OTPC_DEEP_STANDBY] ++
       (if env.poll (q+1) then [Event.regWrite OTPC_IRQ_ST OTPC_STB2DP_IRQ_ST] else [])
     else [])
  else if m = OTPC_STANDBY then
    [Event.modeWrite OTPC_STANDBY OTPC_DEEP_STANDBY] ++
    (if env.poll q then [Event.regWrite OTPC_IRQ_ST OTPC_STB2DP_IRQ_ST] else [])
  else []

/-- Events the activation walk-up emits from mode `m`, for arbitrary poll
outcomes. -/
def activeTraceAny (env : OtpEnv) (m q : Nat) : List Event :=
  if m = OTPC_DEEP_STANDBY then
    [Event.modeWrite OTPC_DEEP_STANDBY OTPC_STANDBY] ++
    (if env.poll q
     then [Event.regWrite OTPC_IRQ_ST OTPC_DP2STB_IRQ_ST,
           Event.modeWrite OTPC_STANDBY OTPC_ACTIVE] ++
       (if env.poll (q+1) then [Event.regWrite OTPC_IRQ_ST OTPC_STB2ACT_IRQ_ST] else [])
     else [])
  else if m = OTPC_STANDBY then
    [Event.modeWrite OTPC_STANDBY OTPC_ACTIVE] ++
    (if env.poll q then [Event.regWrite OTPC_IRQ_ST OTPC_STB2ACT_IRQ_ST] else [])
  else []

/-- How many status waits the activation walk-up performs when it succeeds
from mode `m` (deep-standby: dp2stb and stb2act; standby: stb2act only;
active: none). -/
def activePolls (m : Nat) : Nat :=
  if m = OTPC_DEEP_STANDBY then 2 else if m = OTPC_STANDBY then 1 else 0

/-- Oracle on which every status wait times out: activation fails on the
dp2stb wait and the clocks are released with the controller left in standby. -/
def envBad5 : OtpEnv :=
  ⟨fun _ => 0, 0, 0, fun _ => false, fun a => a, fun a => a, 0, true⟩

lemma pollT_never (seq : Nat → Nat) (mask : Nat) (h : ∀ t, seq t &&& mask = 0) :
    ∀ fuel t, pollT seq mask fuel t = (-ETIMEDOUT, t + fuel) := by
  intro fuel
  induction fuel with
  | zero => intro t; simp [pollT, h]
  | succ n ih =>
    intro t
    simp only [pollT, h, ne_eq, not_true_eq_false, if_false, ite_false]
    rw [ih (t+1)]
    congr 1
    omega

lemma pollT_within (seq : Nat → Nat) (mask t0 : Nat) (h : seq t0 &&& mask ≠ 0) :
    ∀ fuel t, t ≤ t0 → t0 ≤ t + fuel → (pollT seq mask fuel t).1 = 0 := by
  intro fuel
  induction fuel with
  | zero =>
    intro t h1 h2
    have : t = t0 := by omega
    subst this
    simp [pollT, h]
  | succ n ih =>
    intro t h1 h2
    by_cases hc : seq t &&& mask ≠ 0
    · simp [pollT, hc]
    · have hne : t ≠ t0 := by
        intro he; exact hc (he ▸ h)
      simp only [pollT, hc, if_false, ite_false]
      exact ih (t+1) (by omega) (by omega)

lemma px30_wait_timeout (seq : Nat → Nat) (flag : Nat)
    (h : ∀ t, seq t &&& flag = 0) :
    px30_otp_wait_status seq flag = (-ETIMEDOUT, OTPC_TIMEOUT, []) := by
  have hp : pollT seq flag 10000 0 = (-110, 10000) := by
    simpa [ETIMEDOUT] using pollT_never seq flag h 10000 0
  simp [px30_otp_wait_status, readl_poll_timeout_atomic, OTPC_TIMEOUT, hp, ETIMEDOUT]

lemma rk3308bs_wait_timeout (seq : Nat → Nat) (flag : Nat)
    (h : ∀ t, seq t &&& flag = 0) :
    rk3308bs_otp_wait_status seq flag = (-ETIMEDOUT, OTPC_TIMEOUT, []) := by
  have hp : pollT seq flag 10000 0 = (-110, 10000) := by
    simpa [ETIMEDOUT] using pollT_never seq flag h 10000 0
  simp [rk3308bs_otp_wait_status, readl_poll_timeout_atomic, OTPC_TIMEOUT, hp, ETIMEDOUT]

lemma poll_first_zero (seq : Nat → Nat) (flag t0 : Nat)
    (hm : seq t0 &&& flag ≠ 0) (ht : t0 ≤ OTPC_TIMEOUT) :
    (readl_poll_timeout_atomic seq flag 1 OTPC_TIMEOUT).1 = 0 := by
  unfold readl_poll_timeout_atomic
  exact pollT_within seq flag t0 hm (OTPC_TIMEOUT / 1) 0 (Nat.zero_le _)
    (by simpa [OTPC_TIMEOUT] using ht)

/-- Claim C7: a status poll whose register value never has a bit of the target
mask set terminates with a timeout error after exactly the configured bound of
10000 time-units at 1 time-unit polling granularity (the elapsed-time component
of the result equals OTPC_TIMEOUT, so it stops neither earlier nor runs
forever), for both wait routines; and whenever the mask matches within the
bound, both routines return success. -/
theorem c7_poll_timeout_bound (seq : Nat → Nat) (flag : Nat)
    (h : ∀ t, seq t &&& flag = 0) :
    px30_otp_wait_status seq flag = (-ETIMEDOUT, OTPC_TIMEOUT, []) ∧
    rk3308bs_otp_wait_status seq flag = (-ETIMEDOUT, OTPC_TIMEOUT, []) ∧
    (∀ seq2 flag2 t0, seq2 t0 &&& flag2 ≠ 0 → t0 ≤ OTPC_TIMEOUT →
      (px30_otp_wait_status seq2 flag2).1 = 0 ∧
      (rk3308bs_otp_wait_status seq2 flag2).1 = 0) := by
  refine ⟨px30_wait_timeout seq flag h, rk3308bs_wait_timeout seq flag h, ?_⟩
  intro seq2 flag2 t0 hm ht
  have h0 := poll_first_zero seq2 flag2 t0 hm ht
  constructor
  · simp [px30_otp_wait_status, h0]
  · simp [rk3308bs_otp_wait_status, h0]

/-- Witness for C7 at the concrete never-matching status sequence `fun t => 0`
with mask 1. -/
theorem c7_poll_timeout_bound_witness :
    px30_otp_wait_status (fun _ => 0) 1 = (-ETIMEDOUT, OTPC_TIMEOUT, []) :=
  (c7_poll_timeout_bound (fun _ => 0) 1 (fun _ => by simp)).1

/-- Claim C8: a status wait that matches writes back exactly the mask it
tested for — under the write-one-to-clear register model this clears exactly
the tested bits and leaves every other pending status bit unchanged — and a
status wait that times out performs no status-register write at all. -/
theorem c8_status_ack_frame (seq : Nat → Nat) (flag t0 : Nat)
    (hm : seq t0 &&& flag ≠ 0) (ht : t0 ≤ OTPC_TIMEOUT) :
    (px30_otp_wait_status seq flag).2.2 = [(OTPC_INT_STATUS, flag)] ∧
    (rk3308bs_otp_wait_status seq flag).2.2 = [(OTPC_IRQ_ST, flag)] ∧
    (∀ s i, flag.testBit i = false → (w1cApply s flag).testBit i = s.testBit i) ∧
    (∀ s i, flag.testBit i = true → (w1cApply s flag).testBit i = false) ∧
    (∀ seq2 flag2, (∀ t, seq2 t &&& flag2 = 0) →
      (px30_otp_wait_status seq2 flag2).2.2 = [] ∧
      (rk3308bs_otp_wait_status seq2 flag2).2.2 = []) := by
  have h0 := poll_first_zero seq flag t0 hm ht
  refine ⟨by simp [px30_otp_wait_status, h0], by simp [rk3308bs_otp_wait_status, h0],
    ?_, ?_, ?_⟩
  · intro s i hf
    simp [w1cApply, Nat.testBit_xor, Nat.testBit_land, hf]
  · intro s i hf
    simp [w1cApply, Nat.testBit_xor, Nat.testBit_land, hf]
  · intro seq2 flag2 h2
    exact ⟨by simp [px30_wait_timeout seq2 flag2 h2],
      by simp [rk3308bs_wait_timeout seq2 flag2 h2]⟩

/-- Witness for C8 at a status sequence that matches immediately (value 3,
mask 2). -/
theorem c8_status_ack_frame_witness :
    (px30_otp_wait_status (fun _ => 3) 2).2.2 = [(OTPC_INT_STATUS, 2)] :=
  (c8_status_ack_frame (fun _ => 3) 2 0 (by decide) (by decide)).1

/-! ## Success-path lemmas for variant B -/

lemma active_ok (env : OtpEnv) (hpoll : ∀ n, env.poll n = true) (s : OtpState) :
    (rk3308bs_otp_active env s).1 = 0 := by
  by_cases h0 : s.mode = OTPC_DEEP_STANDBY
  · simp [rk3308bs_otp_active, h0, activeFromStandby, waitStep, writeMode, emit, hpoll]
  · by_cases h1 : s.mode = OTPC_STANDBY
    · simp [rk3308bs_otp_active, h0, h1, activeFromStandby, waitStep, writeMode, emit,
        hpoll, OTPC_STANDBY, OTPC_DEEP_STANDBY]
    · simp [rk3308bs_otp_active, h0, h1]

lemma readLoop_ok (env : OtpEnv) (hpoll : ∀ n, env.poll n = true) :
    ∀ (n a : Nat) (s : OtpState),
      (readLoop env n a s).1 = 0 ∧ (readLoop env n a s).2.1 = wordsBytes env n a := by
  intro n
  induction n with
  | zero => intro a s; simp [readLoop, wordsBytes]
  | succ m ih =>
    intro a s
    have h1 := (ih (a+1) ({ emit (Event.regRead OTPC_RD_DATA)
      (emit (Event.regWrite OTPC_IRQ_ST OTPC_RDM_IRQ_ST)
        { writeMode OTPC_READ_ACCESS
            (emit (Event.regWrite OTPC_ACCESS_ADDR a)
              (emit (Event.regWrite OTPC_REPR_RD_TRANS_NUM OTPC_TRANS_NUM) s)) with
          pollIdx := (writeMode OTPC_READ_ACCESS
            (emit (Event.regWrite OTPC_ACCESS_ADDR a)
              (emit (Event.regWrite OTPC_REPR_RD_TRANS_NUM OTPC_TRANS_NUM) s))).pollIdx + 1 }) with
      mode := OTPC_ACTIVE }))
    simp only [readLoop, waitStep, hpoll, if_true, wordsBytes]
    simp only [readLoop, waitStep, hpoll, if_true, wordsBytes] at h1
    simp [h1.1, h1.2]

lemma wordsBytes_length (env : OtpEnv) :
    ∀ (n a : Nat), (wordsBytes env n a).length = 4 * n := by
  intro n
  induction n with
  | zero => intro a; simp [wordsBytes]
  | succ m ih => intro a; simp [wordsBytes, bytesLE4, ih (a+1)]; omega

lemma wordsBytes_eq_flatten (env : OtpEnv) :
    ∀ (n a : Nat), wordsBytes env n a =
      ((List.range n).map (fun k => bytesLE4 (env.word (a + k)))).flatten := by
  intro n
  induction n with
  | zero => intro a; simp [wordsBytes]
  | succ m ih =>
    intro a
    rw [List.range_succ_eq_map]
    simp only [wordsBytes, List.map_cons, List.map_map, List.flatten_cons, Nat.add_zero]
    rw [ih (a+1)]
    congr 1
    apply congrArg
    apply List.map_congr_left
    intro k _
    simp only [Function.comp_apply]
    congr 2
    omega

/-- On a fully successful variant B execution the return code is 0 and the
bytes delivered to the caller are the `(offset mod 4, clamped length)` slice
of the word-aligned scratch content. -/
lemma rk3308bs_read_ok (env : OtpEnv) (offset bytes size : Nat)
    (hoff : offset < size)
    (hclk : ∀ c, env.clkRet c = 0) (hr1 : env.rstAssertRet = 0)
    (hr2 : env.rstDeassertRet = 0)
    (hpoll : ∀ n, env.poll n = true) (halloc : env.allocOk = true) :
    (rk3308bs_otp_read env offset bytes size).1 = 0 ∧
    (rk3308bs_otp_read env offset bytes size).2.1 =
      ((wordsBytes env
          ((offset + (if size < offset + bytes then size - offset else bytes) + 3) / 4
            - offset / 4)
          (offset / 4 + RK3308BS_NO_SECURE_OFFSET)).drop (offset % 4)).take
        (if size < offset + bytes then size - offset else bytes) := by
  have hle : ¬ size ≤ offset := by omega
  have ha : ∀ s, (rk3308bs_otp_active env s).1 = 0 := active_ok env hpoll
  have hl1 : ∀ n a s, (readLoop env n a s).1 = 0 := fun n a s => (readLoop_ok env hpoll n a s).1
  have hl2 : ∀ n a s, (readLoop env n a s).2.1 = wordsBytes env n a :=
    fun n a s => (readLoop_ok env hpoll n a s).2
  constructor
  · simp [rk3308bs_otp_read, hle, clk_prepare_enable, hclk, rockchip_otp_reset,
      hr1, hr2, ha, halloc, hl1, RK3308BS_NBYTES]
  · simp [rk3308bs_otp_read, hle, clk_prepare_enable, hclk, rockchip_otp_reset,
      hr1, hr2, ha, halloc, hl1, hl2, RK3308BS_NBYTES]

/-- Claim C2: for every variant B read with offset < size, on a fully
successful execution the number of bytes delivered to the caller equals
min(length, size - offset): the length is silently clamped when it overruns
the declared size, otherwise exactly `bytes` bytes are returned. -/
theorem c2_returned_length (env : OtpEnv) (offset bytes size : Nat)
    (hoff : offset < size)
    (hclk : ∀ c, env.clkRet c = 0) (hr1 : env.rstAssertRet = 0)
    (hr2 : env.rstDeassertRet = 0)
    (hpoll : ∀ n, env.poll n = true) (halloc : env.allocOk = true) :
    (rk3308bs_otp_read env offset bytes size).1 = 0 ∧
    (rk3308bs_otp_read env offset bytes size).2.1.length = min bytes (size - offset) := by
  obtain ⟨h1, h2⟩ := rk3308bs_read_ok env offset bytes size hoff hclk hr1 hr2 hpoll halloc
  refine ⟨h1, ?_⟩
  rw [h2]
  by_cases hc : size < offset + bytes
  · simp [hc, wordsBytes_length]
    omega
  · simp [hc, wordsBytes_length]
    omega

/-- Witness for C2 at offset 0x7E, length 4, size 0x80: two bytes delivered. -/
theorem c2_returned_length_witness :
    (rk3308bs_otp_read envAllOk 126 4 128).1 = 0 ∧
    (rk3308bs_otp_read envAllOk 126 4 128).2.1.length = min 4 (128 - 126) :=
  c2_returned_length envAllOk 126 4 128 (by decide) (fun _ => rfl) rfl rfl
    (fun _ => rfl) rfl

/-- Claim C1: for every variant B read with offset < size, on a fully
successful execution the bytes delivered to the caller equal the spec's
round-trip: words of the window floor(offset/4)+224 .. ceil((offset+cl)/4)-1+224
read in ascending order, little-endian bytes concatenated, then cl bytes
sliced starting at offset mod 4 (cl the clamped length) — for every
(offset, length) pair, aligned or not. -/
theorem c1_window_roundtrip (env : OtpEnv) (offset bytes size : Nat)
    (hoff : offset < size)
    (hclk : ∀ c, env.clkRet c = 0) (hr1 : env.rstAssertRet = 0)
    (hr2 : env.rstDeassertRet = 0)
    (hpoll : ∀ n, env.poll n = true) (halloc : env.allocOk = true) :
    (rk3308bs_otp_read env offset bytes size).2.1 =
      specWindowBytes env offset bytes size := by
  obtain ⟨-, h2⟩ := rk3308bs_read_ok env offset bytes size hoff hclk hr1 hr2 hpoll halloc
  rw [h2]
  have hcl : min bytes (size - offset) =
      (if size < offset + bytes then size - offset else bytes) := by
    by_cases hc : size < offset + bytes <;> simp [hc] <;> omega
  simp only [specWindowBytes, hcl]
  set nb := if size < offset + bytes then size - offset else bytes with hnb
  by_cases h0 : nb = 0
  · simp [h0]
  · have hcount : (offset + nb + 3) / 4 - 1 + RK3308BS_NO_SECURE_OFFSET + 1
        - (offset / 4 + RK3308BS_NO_SECURE_OFFSET)
        = (offset + nb + 3) / 4 - offset / 4 := by
      simp only [RK3308BS_NO_SECURE_OFFSET]
      omega
    rw [hcount, wordsBytes_eq_flatten]

/-- Witness for C1 at the misaligned pair offset 1, length 5. -/
theorem c1_window_roundtrip_witness :
    (rk3308bs_otp_read envAllOk 1 5 128).2.1 = specWindowBytes envAllOk 1 5 128 :=
  c1_window_roundtrip envAllOk 1 5 128 (by decide) (fun _ => rfl) rfl rfl
    (fun _ => rfl) rfl

/-- Claim C10: a variant B request with offset >= size returns -ENOMEM — the
very same code an exhausted scratch-buffer allocation produces — with no byte
delivered and an empty event trace (no clock enabled, no reset pulsed, no
register touched). -/
theorem c10_oob_enomem (env : OtpEnv) (offset bytes size : Nat)
    (h : size ≤ offset) :
    rk3308bs_otp_read env offset bytes size = (-ENOMEM, [], []) ∧
    (∀ env2 o2 b2 s2, o2 < s2 → env2.allocOk = false →
      (∀ c, env2.clkRet c = 0) → env2.rstAssertRet = 0 → env2.rstDeassertRet = 0 →
      (∀ n, env2.poll n = true) →
      (rk3308bs_otp_read env2 o2 b2 s2).1 = -ENOMEM) := by
  constructor
  · simp [rk3308bs_otp_read, h]
  · intro env2 o2 b2 s2 ho2 hal hclk hr1 hr2 hpoll
    have hle : ¬ s2 ≤ o2 := by omega
    have ha := active_ok env2 hpoll
    simp [rk3308bs_otp_read, hle, clk_prepare_enable, hclk, rockchip_otp_reset,
      hr1, hr2, ha, hal]

/-- Witness for C10 at offset 200 past the declared size 128. -/
theorem c10_oob_enomem_witness :
    rk3308bs_otp_read envAllOk 200 4 128 = (-ENOMEM, [], []) :=
  (c10_oob_enomem envAllOk 200 4 128 (by decide)).1

/-! ## Exact traces of the fully successful variant B execution -/

lemma readLoop_ok_state (env : OtpEnv) (hpoll : ∀ n, env.poll n = true) :
    ∀ (n a : Nat) (s : OtpState), s.mode = OTPC_ACTIVE →
      (readLoop env n a s).2.2 =
        ⟨s.trace ++ loopTraceB n a, OTPC_ACTIVE, s.pollIdx + n⟩ := by
  intro n
  induction n with
  | zero =>
    intro a s hm
    simp only [readLoop, loopTraceB, List.append_nil]
    cases s
    simp_all
  | succ m ih =>
    intro a s hm
    simp only [readLoop, waitStep, hpoll, if_true, writeMode, emit, loopTraceB]
    rw [ih (a+1) _ rfl]
    simp [hm]
    omega

lemma active_ok_state (env : OtpEnv) (hpoll : ∀ n, env.poll n = true)
    (s : OtpState) (hm : s.mode = OTPC_DEEP_STANDBY) :
    rk3308bs_otp_active env s =
      (0, ⟨s.trace ++
        [Event.modeWrite OTPC_DEEP_STANDBY OTPC_STANDBY,
         Event.regWrite OTPC_IRQ_ST OTPC_DP2STB_IRQ_ST,
         Event.modeWrite OTPC_STANDBY OTPC_ACTIVE,
         Event.regWrite OTPC_IRQ_ST OTPC_STB2ACT_IRQ_ST],
        OTPC_ACTIVE, s.pollIdx + 2⟩) := by
  simp [rk3308bs_otp_active, hm, activeFromStandby, waitStep, writeMode, emit, hpoll,
    OTPC_STANDBY, OTPC_DEEP_STANDBY]

lemma standby_ok_state (env : OtpEnv) (hpoll : ∀ n, env.poll n = true)
    (s : OtpState) (hm : s.mode = OTPC_ACTIVE) :
    rk3308bs_otp_standby env s =
      (0, ⟨s.trace ++
        [Event.modeWrite OTPC_ACTIVE OTPC_STANDBY,
         Event.regWrite OTPC_IRQ_ST OTPC_ACT2STB_IRQ_ST,
         Event.modeWrite OTPC_STANDBY OTPC_DEEP_STANDBY,
         Event.regWrite OTPC_IRQ_ST OTPC_STB2DP_IRQ_ST],
        OTPC_DEEP_STANDBY, s.pollIdx + 2⟩) := by
  simp [rk3308bs_otp_standby, hm, standbyFromStandby, waitStep, writeMode, emit, hpoll,
    OTPC_STANDBY, OTPC_ACTIVE]

/-- Exact event trace of a fully successful variant B read starting from
deep-standby. -/
lemma rk3308bs_read_ok_trace (env : OtpEnv) (offset bytes size : Nat)
    (hoff : offset < size)
    (hclk : ∀ c, env.clkRet c = 0) (hr1 : env.rstAssertRet = 0)
    (hr2 : env.rstDeassertRet = 0)
    (hpoll : ∀ n, env.poll n = true) (halloc : env.allocOk = true)
    (hmode : env.initMode = OTPC_DEEP_STANDBY) :
    (rk3308bs_otp_read env offset bytes size).2.2 =
      [Event.clkEnable 0, Event.clkEnable 1, Event.clkEnable 2,
       Event.resetAssert, Event.resetDeassert,
       Event.modeWrite OTPC_DEEP_STANDBY OTPC_STANDBY,
       Event.regWrite OTPC_IRQ_ST OTPC_DP2STB_IRQ_ST,
       Event.modeWrite OTPC_STANDBY OTPC_ACTIVE,
       Event.regWrite OTPC_IRQ_ST OTPC_STB2ACT_IRQ_ST]
      ++ loopTraceB
          ((offset + (if size < offset + bytes then size - offset else bytes) + 3) / 4
            - offset / 4)
          (offset / 4 + RK3308BS_NO_SECURE_OFFSET)
      ++ [Event.modeWrite OTPC_ACTIVE OTPC_STANDBY,
          Event.regWrite OTPC_IRQ_ST OTPC_ACT2STB_IRQ_ST,
          Event.modeWrite OTPC_STANDBY OTPC_DEEP_STANDBY,
          Event.regWrite OTPC_IRQ_ST OTPC_STB2DP_IRQ_ST,
          Event.clkDisable 2, Event.clkDisable 1, Event.clkDisable 0] := by
  have hle : ¬ size ≤ offset := by omega
  have hl1 : ∀ n a s, (readLoop env n a s).1 = 0 := fun n a s => (readLoop_ok env hpoll n a s).1
  simp only [rk3308bs_otp_read, hle, if_false, clk_prepare_enable, hclk,
    rockchip_otp_reset, hr1, hr2, halloc, RK3308BS_NBYTES, ite_false]
  norm_num
  rw [active_ok_state env hpoll _ (by simp [emit, hmode])]
  norm_num [hl1]
  rw [readLoop_ok_state env hpoll _ _ _ rfl]
  simp only [read_end, release_all, clk_disable_unprepare]
  rw [standby_ok_state env hpoll _ rfl]
  simp [emit]

/-- Counterexample to claim C3 as stated: for variant B offset=0x7E, length=4,
size=0x80 on a fully successful execution, the per-word read loop programs the
access-address register exactly once (word 31 + 224 = 255) — not twice, so the
window does not cover the last two aligned words. -/
theorem c3_counterexample :
    accessAddrWrites (rk3308bs_otp_read envAllOk 126 4 128).2.2 = [255] ∧
    (accessAddrWrites (rk3308bs_otp_read envAllOk 126 4 128).2.2).length ≠ 2 := by
  decide

/-- Claim C3 (amended): for variant B offset=0x7E, length=4 with size=0x80 the
length is clamped to 2 and the word window covers only the last aligned word:
the read loop issues exactly one word read, at access address 31 + 224 = 255. -/
theorem c3_amended_one_word (env : OtpEnv)
    (hclk : ∀ c, env.clkRet c = 0) (hr1 : env.rstAssertRet = 0)
    (hr2 : env.rstDeassertRet = 0)
    (hpoll : ∀ n, env.poll n = true) (halloc : env.allocOk = true)
    (hmode : env.initMode = OTPC_DEEP_STANDBY) :
    (rk3308bs_otp_read env 126 4 128).1 = 0 ∧
    (rk3308bs_otp_read env 126 4 128).2.1.length = 2 ∧
    accessAddrWrites (rk3308bs_otp_read env 126 4 128).2.2 = [255] := by
  obtain ⟨h1, h2⟩ := rk3308bs_read_ok env 126 4 128 (by norm_num) hclk hr1 hr2 hpoll halloc
  refine ⟨h1, ?_, ?_⟩
  · rw [h2]
    norm_num [wordsBytes_length]
  · rw [rk3308bs_read_ok_trace env 126 4 128 (by norm_num) hclk hr1 hr2 hpoll halloc hmode]
    norm_num [RK3308BS_NO_SECURE_OFFSET]
    decide

/-- Witness for the amended C3 at the all-success oracle. -/
theorem c3_amended_one_word_witness :
    (rk3308bs_otp_read envAllOk 126 4 128).1 = 0 ∧
    (rk3308bs_otp_read envAllOk 126 4 128).2.1.length = 2 ∧
    accessAddrWrites (rk3308bs_otp_read envAllOk 126 4 128).2.2 = [255] :=
  c3_amended_one_word envAllOk (fun _ => rfl) rfl rfl (fun _ => rfl) rfl rfl

/-! ## Success path of variant A -/

lemma ecc_ok_state (env : OtpEnv) (hpoll : ∀ n, env.poll n = true) (s : OtpState) :
    px30_otp_ecc_enable env false s =
      (0, ⟨s.trace ++ eccTraceA, s.mode, s.pollIdx + 1⟩) := by
  simp [px30_otp_ecc_enable, waitStep, emit, hpoll, eccTraceA]

lemma px30_loop_ok (env : OtpEnv) (hpoll : ∀ n, env.poll n = true) :
    ∀ (n off : Nat) (s : OtpState),
      px30_read_loop env n off s =
        (0, px30Bytes env n off,
         ⟨s.trace ++ px30LoopTrace n off, s.mode, s.pollIdx + n⟩) := by
  intro n
  induction n with
  | zero =>
    intro off s
    simp only [px30_read_loop, px30Bytes, px30LoopTrace, List.append_nil]
    cases s
    simp
  | succ m ih =>
    intro off s
    simp only [px30_read_loop, waitStep, hpoll, if_true, emit, px30Bytes, px30LoopTrace]
    rw [ih (off+1)]
    simp
    omega

lemma px30Bytes_eq_map (env : OtpEnv) :
    ∀ (n off : Nat), off + n ≤ 65536 →
      px30Bytes env n off = (List.range n).map (fun i => env.byteAt (off + i)) := by
  intro n
  induction n with
  | zero => intro off _; simp [px30Bytes]
  | succ m ih =>
    intro off h
    rw [List.range_succ_eq_map]
    simp only [px30Bytes, List.map_cons, List.map_map]
    congr 1
    · congr 1
      omega
    · rw [ih (off+1) (by omega)]
      apply List.map_congr_left
      intro k _
      simp only [Function.comp_apply]
      congr 1
      omega

lemma userAddrWrites_append (t1 t2 : List Event) :
    userAddrWrites (t1 ++ t2) = userAddrWrites t1 ++ userAddrWrites t2 := by
  simp [userAddrWrites, List.filterMap_append]

lemma px30LoopTrace_addrWrites :
    ∀ (n off : Nat),
      userAddrWrites (px30LoopTrace n off) =
        (List.range n).map (fun i => (off + i) % 4294967296 ||| OTPC_USER_ADDR_MASK) := by
  intro n
  induction n with
  | zero => intro off; simp [px30LoopTrace, userAddrWrites]
  | succ m ih =>
    intro off
    rw [List.range_succ_eq_map]
    simp only [px30LoopTrace, List.map_cons, List.map_map]
    rw [userAddrWrites_append, ih (off+1)]
    simp [userAddrWrites, OTPC_USER_ADDR, OTPC_USER_ENABLE, OTPC_INT_STATUS, OTPC_USER_Q]
    intro a _
    congr 1
    omega

lemma px30LoopTrace_countReads :
    ∀ (n off : Nat), countReads (px30LoopTrace n off) OTPC_USER_Q = n := by
  intro n
  induction n with
  | zero => intro off; simp [px30LoopTrace, countReads]
  | succ m ih =>
    intro off
    simp only [px30LoopTrace, countReads, List.filter_append, List.length_append]
    have := ih (off+1)
    simp only [countReads] at this
    rw [this]
    simp [OTPC_USER_Q]
    omega

/-- Exact result and trace of a fully successful variant A read. -/
lemma px30_read_ok (env : OtpEnv) (offset bytes : Nat)
    (hclk : ∀ c, env.clkRet c = 0) (hr1 : env.rstAssertRet = 0)
    (hr2 : env.rstDeassertRet = 0) (hpoll : ∀ n, env.poll n = true) :
    px30_otp_read env offset bytes =
      (0, px30Bytes env bytes offset,
       [Event.clkEnable 0, Event.clkEnable 1, Event.clkEnable 2,
        Event.resetAssert, Event.resetDeassert]
       ++ eccTraceA
       ++ [Event.regWrite OTPC_USER_CTRL (OTPC_USE_USER ||| OTPC_USE_USER_MASK)]
       ++ px30LoopTrace bytes offset
       ++ [Event.regWrite OTPC_USER_CTRL OTPC_USE_USER_MASK,
           Event.clkDisable 2, Event.clkDisable 1, Event.clkDisable 0]) := by
  simp only [px30_otp_read, clk_prepare_enable, hclk, rockchip_otp_reset, hr1, hr2]
  norm_num
  rw [ecc_ok_state env hpoll]
  norm_num
  rw [px30_loop_ok env hpoll]
  simp [emit, release_all, clk_disable_unprepare]

/-- Claim C4: a variant A read of N bytes from `offset` in which every status
poll succeeds performs exactly N single-byte read cycles, programs the address
register with offsets offset, offset+1, ..., offset+N-1 in strictly increasing
order with none skipped or repeated, and the i-th byte delivered is the OTP
byte at offset+i. -/
theorem c4_variantA_sequential (env : OtpEnv) (offset bytes : Nat)
    (hclk : ∀ c, env.clkRet c = 0) (hr1 : env.rstAssertRet = 0)
    (hr2 : env.rstDeassertRet = 0)
    (hpoll : ∀ n, env.poll n = true) (hbound : offset + bytes ≤ 65536) :
    (px30_otp_read env offset bytes).1 = 0 ∧
    (px30_otp_read env offset bytes).2.1 =
      (List.range bytes).map (fun i => env.byteAt (offset + i)) ∧
    userAddrWrites (px30_otp_read env offset bytes).2.2 =
      (List.range bytes).map (fun i => (offset + i) ||| OTPC_USER_ADDR_MASK) ∧
    countReads (px30_otp_read env offset bytes).2.2 OTPC_USER_Q = bytes ∧
    List.Pairwise (· < ·) ((List.range bytes).map (fun i => offset + i)) := by
  rw [px30_read_ok env offset bytes hclk hr1 hr2 hpoll]
  refine ⟨rfl, px30Bytes_eq_map env bytes offset hbound, ?_, ?_, ?_⟩
  · rw [userAddrWrites_append, userAddrWrites_append, userAddrWrites_append,
      userAddrWrites_append, px30LoopTrace_addrWrites]
    simp [userAddrWrites, eccTraceA, OTPC_USER_ADDR, OTPC_USER_CTRL, OTPC_SBPI_CTRL,
      OTPC_SBPI_CMD_VALID_PRE, OTPC_SBPI_CMD0_OFFSET, OTPC_SBPI_CMD1_OFFSET,
      OTPC_INT_STATUS]
    intro a ha
    congr 1
    omega
  · simp only [countReads, List.filter_append, List.length_append]
    have hl := px30LoopTrace_countReads bytes offset
    simp only [countReads] at hl
    rw [hl]
    simp [eccTraceA, OTPC_USER_Q]
  · rw [List.pairwise_map]
    exact (List.pairwise_lt_range _).imp (fun h => by omega)

/-- Witness for C4 at offset 3, four bytes, on the all-success oracle. -/
theorem c4_variantA_sequential_witness :
    (px30_otp_read envAllOk 3 4).1 = 0 ∧
    (px30_otp_read envAllOk 3 4).2.1 =
      (List.range 4).map (fun i => envAllOk.byteAt (3 + i)) ∧
    userAddrWrites (px30_otp_read envAllOk 3 4).2.2 =
      (List.range 4).map (fun i => (3 + i) ||| OTPC_USER_ADDR_MASK) ∧
    countReads (px30_otp_read envAllOk 3 4).2.2 OTPC_USER_Q = 4 ∧
    List.Pairwise (· < ·) ((List.range 4).map (fun i => 3 + i)) :=
  c4_variantA_sequential envAllOk 3 4 (fun _ => rfl) rfl rfl (fun _ => rfl)
    (by norm_num)

/-! ## Clock-neutral trace extensions -/

lemma clkEnables_append (t1 t2 : List Event) :
    clkEnables (t1 ++ t2) = clkEnables t1 ++ clkEnables t2 := by
  simp [clkEnables, List.filterMap_append]

lemma clkDisables_append (t1 t2 : List Event) :
    clkDisables (t1 ++ t2) = clkDisables t1 ++ clkDisables t2 := by
  simp [clkDisables, List.filterMap_append]

lemma benign_clkEnables : ∀ (Δ : List Event), (∀ e ∈ Δ, benign e) → clkEnables Δ = [] := by
  intro Δ
  induction Δ with
  | nil => intro _; rfl
  | cons e t ih =>
    intro h
    have he := h e (by simp)
    have ht := ih (fun x hx => h x (by simp [hx]))
    cases e <;> simp [benign] at he <;> simp [clkEnables] at ht ⊢ <;> simpa [clkEnables]

lemma benign_clkDisables : ∀ (Δ : List Event), (∀ e ∈ Δ, benign e) → clkDisables Δ = [] := by
  intro Δ
  induction Δ with
  | nil => intro _; rfl
  | cons e t ih =>
    intro h
    have he := h e (by simp)
    have ht := ih (fun x hx => h x (by simp [hx]))
    cases e <;> simp [benign] at he <;> simp [clkDisables] at ht ⊢ <;> simpa [clkDisables]

lemma benignStep_refl (s : OtpState) : BenignStep s s :=
  ⟨[], by simp, by simp⟩

lemma benignStep_of_traceEq {s s' : OtpState} (h : s'.trace = s.trace) :
    BenignStep s s' := ⟨[], by simp [h], by simp⟩

lemma benignStep_trans {s1 s2 s3 : OtpState}
    (h1 : BenignStep s1 s2) (h2 : BenignStep s2 s3) : BenignStep s1 s3 := by
  obtain ⟨d1, e1, b1⟩ := h1
  obtain ⟨d2, e2, b2⟩ := h2
  refine ⟨d1 ++ d2, by rw [e2, e1, List.append_assoc], ?_⟩
  intro e he
  rcases List.mem_append.mp he with h | h
  · exact b1 e h
  · exact b2 e h

lemma benignStep_emit {e : Event} (he : benign e) (s : OtpState) :
    BenignStep s (emit e s) := ⟨[e], by simp [emit], by simpa⟩

lemma benignStep_clk {s s' : OtpState} (h : BenignStep s s') :
    clkEnables s'.trace = clkEnables s.trace ∧
    clkDisables s'.trace = clkDisables s.trace := by
  obtain ⟨Δ, hΔ, hb⟩ := h
  rw [hΔ, clkEnables_append, clkDisables_append,
    benign_clkEnables Δ hb, benign_clkDisables Δ hb]
  simp

lemma waitStep_benign (env : OtpEnv) (reg flag : Nat) (s : OtpState) :
    BenignStep s (waitStep env reg flag s).2 := by
  by_cases h : env.poll s.pollIdx
  · exact ⟨[Event.regWrite reg flag], by simp [waitStep, h, emit], by simp [benign]⟩
  · exact ⟨[], by simp [waitStep, h], by simp⟩

lemma writeMode_benign (v : Nat) (s : OtpState) : BenignStep s (writeMode v s) :=
  ⟨[Event.modeWrite s.mode v], by simp [writeMode, emit], by simp [benign]⟩

lemma activeFS_benign (env : OtpEnv) (s : OtpState) :
    BenignStep s (activeFromStandby env s).2 := by
  have h1 := writeMode_benign OTPC_ACTIVE s
  have h2 := waitStep_benign env OTPC_IRQ_ST OTPC_STB2ACT_IRQ_ST (writeMode OTPC_ACTIVE s)
  have he : (activeFromStandby env s).2 =
      (waitStep env OTPC_IRQ_ST OTPC_STB2ACT_IRQ_ST (writeMode OTPC_ACTIVE s)).2 := by
    simp only [activeFromStandby]
    split <;> rfl
  rw [he]
  exact benignStep_trans h1 h2

lemma active_benign (env : OtpEnv) (s : OtpState) :
    BenignStep s (rk3308bs_otp_active env s).2 := by
  by_cases h0 : s.mode = OTPC_DEEP_STANDBY
  · have hw := writeMode_benign OTPC_STANDBY s
    have hw2 := waitStep_benign env OTPC_IRQ_ST OTPC_DP2STB_IRQ_ST (writeMode OTPC_STANDBY s)
    by_cases hr : (waitStep env OTPC_IRQ_ST OTPC_DP2STB_IRQ_ST (writeMode OTPC_STANDBY s)).1 < 0
    · have he : (rk3308bs_otp_active env s).2 =
          (waitStep env OTPC_IRQ_ST OTPC_DP2STB_IRQ_ST (writeMode OTPC_STANDBY s)).2 := by
        simp [rk3308bs_otp_active, h0, hr]
      rw [he]; exact benignStep_trans hw hw2
    · have he : (rk3308bs_otp_active env s).2 =
          (activeFromStandby env
            (waitStep env OTPC_IRQ_ST OTPC_DP2STB_IRQ_ST (writeMode OTPC_STANDBY s)).2).2 := by
        simp [rk3308bs_otp_active, h0, hr]
      rw [he]
      exact benignStep_trans (benignStep_trans hw hw2) (activeFS_benign env _)
  · by_cases h1 : s.mode = OTPC_STANDBY
    · have he : (rk3308bs_otp_active env s).2 = (activeFromStandby env s).2 := by
        simp [rk3308bs_otp_active, h0, h1, OTPC_STANDBY, OTPC_DEEP_STANDBY]
      rw [he]; exact activeFS_benign env s
    · have he : (rk3308bs_otp_active env s).2 = s := by
        simp [rk3308bs_otp_active, h0, h1]
      rw [he]; exact benignStep_refl s

lemma standbyFS_benign (env : OtpEnv) (s : OtpState) :
    BenignStep s (standbyFromStandby env s).2 := by
  have h1 := writeMode_benign OTPC_DEEP_STANDBY s
  have h2 := waitStep_benign env OTPC_IRQ_ST OTPC_STB2DP_IRQ_ST (writeMode OTPC_DEEP_STANDBY s)
  have he : (standbyFromStandby env s).2 =
      (waitStep env OTPC_IRQ_ST OTPC_STB2DP_IRQ_ST (writeMode OTPC_DEEP_STANDBY s)).2 := by
    simp only [standbyFromStandby]
    split <;> rfl
  rw [he]
  exact benignStep_trans h1 h2

lemma standby_benign (env : OtpEnv) (s : OtpState) :
    BenignStep s (rk3308bs_otp_standby env s).2 := by
  by_cases h0 : s.mode = OTPC_ACTIVE
  · have hw := writeMode_benign OTPC_STANDBY s
    have hw2 := waitStep_benign env OTPC_IRQ_ST OTPC_ACT2STB_IRQ_ST (writeMode OTPC_STANDBY s)
    by_cases hr : (waitStep env OTPC_IRQ_ST OTPC_ACT2STB_IRQ_ST (writeMode OTPC_STANDBY s)).1 < 0
    · have he : (rk3308bs_otp_standby env s).2 =
          (waitStep env OTPC_IRQ_ST OTPC_ACT2STB_IRQ_ST (writeMode OTPC_STANDBY s)).2 := by
        simp [rk3308bs_otp_standby, h0, hr]
      rw [he]; exact benignStep_trans hw hw2
    · have he : (rk3308bs_otp_standby env s).2 =
          (standbyFromStandby env
            (waitStep env OTPC_IRQ_ST OTPC_ACT2STB_IRQ_ST (writeMode OTPC_STANDBY s)).2).2 := by
        simp [rk3308bs_otp_standby, h0, hr]
      rw [he]
      exact benignStep_trans (benignStep_trans hw hw2) (standbyFS_benign env _)
  · by_cases h1 : s.mode = OTPC_STANDBY
    · have he : (rk3308bs_otp_standby env s).2 = (standbyFromStandby env s).2 := by
        simp [rk3308bs_otp_standby, h0, h1, OTPC_STANDBY, OTPC_ACTIVE]
      rw [he]; exact standbyFS_benign env s
    · have he : (rk3308bs_otp_standby env s).2 = s := by
        simp [rk3308bs_otp_standby, h0, h1]
      rw [he]; exact benignStep_refl s

lemma reset_benign (env : OtpEnv) (s : OtpState) :
    BenignStep s (rockchip_otp_reset env s).2 := by
  by_cases h1 : env.rstAssertRet ≠ 0
  · have he : (rockchip_otp_reset env s).2 = s := by simp [rockchip_otp_reset, h1]
    rw [he]; exact benignStep_refl s
  · by_cases h2 : env.rstDeassertRet ≠ 0
    · have he : (rockchip_otp_reset env s).2 = emit Event.resetAssert s := by
        simp [rockchip_otp_reset, h1, h2]
      rw [he]; exact benignStep_emit (by simp [benign]) s
    · have he : (rockchip_otp_reset env s).2 =
          emit Event.resetDeassert (emit Event.resetAssert s) := by
        simp [rockchip_otp_reset, h1, h2]
      rw [he]
      exact benignStep_trans (benignStep_emit (by simp [benign]) s)
        (benignStep_emit (by simp [benign]) _)

lemma readLoop_benign (env : OtpEnv) :
    ∀ (n a : Nat) (s : OtpState), BenignStep s (readLoop env n a s).2.2 := by
  intro n
  induction n with
  | zero => intro a s; exact benignStep_refl s
  | succ m ih =>
    intro a s
    simp only [readLoop]
    set s3 := writeMode OTPC_READ_ACCESS
      (emit (Event.regWrite OTPC_ACCESS_ADDR a)
        (emit (Event.regWrite OTPC_REPR_RD_TRANS_NUM OTPC_TRANS_NUM) s)) with hs3
    have hpre : BenignStep s s3 := by
      rw [hs3]
      exact benignStep_trans
        (benignStep_trans (benignStep_emit (by simp [benign]) s)
          (benignStep_emit (by simp [benign]) _))
        (writeMode_benign _ _)
    have hwait := waitStep_benign env OTPC_IRQ_ST OTPC_RDM_IRQ_ST s3
    by_cases hr : (waitStep env OTPC_IRQ_ST OTPC_RDM_IRQ_ST s3).1 < 0
    · rw [if_pos hr]
      exact benignStep_trans hpre hwait
    · rw [if_neg hr]
      refine benignStep_trans (benignStep_trans hpre hwait) ?_
      refine benignStep_trans ?_ (ih (a+1) _)
      exact ⟨[Event.regRead OTPC_RD_DATA], by simp [emit], by simp [benign]⟩

lemma ecc_benign (env : OtpEnv) (enable : Bool) (s : OtpState) :
    BenignStep s (px30_otp_ecc_enable env enable s).2 := by
  refine benignStep_trans ?_ (waitStep_benign env OTPC_INT_STATUS OTPC_SBPI_DONE _)
  exact ⟨[Event.regWrite OTPC_SBPI_CTRL
      (SBPI_DAP_ADDR_MASK ||| SBPI_DAP_ADDR <<< SBPI_DAP_ADDR_SHIFT),
    Event.regWrite OTPC_SBPI_CMD_VALID_PRE (SBPI_CMD_VALID_MASK ||| 1),
    Event.regWrite OTPC_SBPI_CMD0_OFFSET (SBPI_DAP_CMD_WRF ||| SBPI_DAP_REG_ECC),
    Event.regWrite OTPC_SBPI_CMD1_OFFSET
      (if enable then SBPI_ECC_ENABLE else SBPI_ECC_DISABLE),
    Event.regWrite OTPC_SBPI_CTRL (SBPI_ENABLE_MASK ||| SBPI_ENABLE)],
    by simp [emit], by simp [benign]⟩

lemma px30_loop_benign (env : OtpEnv) :
    ∀ (n off : Nat) (s : OtpState), BenignStep s (px30_read_loop env n off s).2.2 := by
  intro n
  induction n with
  | zero => intro off s; exact benignStep_refl s
  | succ m ih =>
    intro off s
    simp only [px30_read_loop]
    set s2 := emit (Event.regWrite OTPC_USER_ENABLE
        (OTPC_USER_FSM_ENABLE ||| OTPC_USER_FSM_ENABLE_MASK))
      (emit (Event.regWrite OTPC_USER_ADDR
        (off % 4294967296 ||| OTPC_USER_ADDR_MASK)) s) with hs2
    have hpre : BenignStep s s2 := by
      rw [hs2]
      exact benignStep_trans (benignStep_emit (by simp [benign]) s)
        (benignStep_emit (by simp [benign]) _)
    have hwait := waitStep_benign env OTPC_INT_STATUS OTPC_USER_DONE s2
    by_cases hr : (waitStep env OTPC_INT_STATUS OTPC_USER_DONE s2).1 < 0
    · rw [if_pos hr]
      exact benignStep_trans hpre hwait
    · rw [if_neg hr]
      refine benignStep_trans (benignStep_trans hpre hwait) ?_
      refine benignStep_trans ?_ (ih (off+1) _)
      exact ⟨[Event.regRead OTPC_USER_Q], by simp [emit], by simp [benign]⟩

lemma release_all_trace (s : OtpState) :
    (release_all s).trace = s.trace ++
      [Event.clkDisable 2, Event.clkDisable 1, Event.clkDisable 0] := by
  simp [release_all, clk_disable_unprepare, emit]

lemma read_end_clk (env : OtpEnv) (s : OtpState) :
    clkEnables (read_end env s).trace = clkEnables s.trace ∧
    clkDisables (read_end env s).trace = clkDisables s.trace ++ [2, 1, 0] := by
  have hb := benignStep_clk (standby_benign env s)
  rw [read_end, release_all_trace, clkEnables_append, clkDisables_append, hb.1, hb.2]
  simp [clkEnables, clkDisables]

lemma release_all_clk (s : OtpState) :
    clkEnables (release_all s).trace = clkEnables s.trace ∧
    clkDisables (release_all s).trace = clkDisables s.trace ++ [2, 1, 0] := by
  rw [release_all_trace, clkEnables_append, clkDisables_append]
  simp [clkEnables, clkDisables]

lemma ite_trace_eq {c : Prop} [Decidable c] (x1 x2 : Int) (y1 y2 : List Nat)
    (t : List Event) : (if c then (x1, y1, t) else (x2, y2, t)).2.2 = t := by
  split <;> rfl

lemma rk3308bs_clk_shape (env : OtpEnv) (offset bytes size : Nat) :
    ∃ k ≤ 3, clkEnables (rk3308bs_otp_read env offset bytes size).2.2 = List.range k ∧
      clkDisables (rk3308bs_otp_read env offset bytes size).2.2 = (List.range k).reverse := by
  by_cases hoob : size ≤ offset
  · exact ⟨0, by norm_num,
      by simp [rk3308bs_otp_read, hoob, clkEnables],
      by simp [rk3308bs_otp_read, hoob, clkDisables]⟩
  · by_cases h0 : env.clkRet 0 < 0
    · exact ⟨0, by norm_num,
        by simp [rk3308bs_otp_read, hoob, clk_prepare_enable, h0, clkEnables],
        by simp [rk3308bs_otp_read, hoob, clk_prepare_enable, h0, clkDisables]⟩
    · by_cases h1 : env.clkRet 1 < 0
      · exact ⟨1, by norm_num,
          by simp [rk3308bs_otp_read, hoob, clk_prepare_enable, h0, h1,
            clk_disable_unprepare, emit, clkEnables, List.range_succ],
          by simp [rk3308bs_otp_read, hoob, clk_prepare_enable, h0, h1,
            clk_disable_unprepare, emit, clkDisables, List.range_succ]⟩
      · by_cases h2 : env.clkRet 2 < 0
        · exact ⟨2, by norm_num,
            by simp [rk3308bs_otp_read, hoob, clk_prepare_enable, h0, h1, h2,
              release_pclk, clk_disable_unprepare, emit, clkEnables, List.range_succ],
            by simp [rk3308bs_otp_read, hoob, clk_prepare_enable, h0, h1, h2,
              release_pclk, clk_disable_unprepare, emit, clkDisables, List.range_succ]⟩
        · by_cases hra : env.rstAssertRet = 0
          · by_cases hrd : env.rstDeassertRet = 0
            · -- both reset steps fine: the execution reaches the mode machine
              refine ⟨3, by norm_num, ?_⟩
              simp only [rk3308bs_otp_read, hoob, if_neg hoob, clk_prepare_enable,
                h0, h1, h2, if_false, ite_false, rockchip_otp_reset, hra, hrd,
                ne_eq, not_true_eq_false, not_false_eq_true, if_true, ite_true]
              norm_num
              set sR : OtpState := emit Event.resetDeassert (emit Event.resetAssert
                (emit (Event.clkEnable 2) (emit (Event.clkEnable 1)
                  (emit (Event.clkEnable 0) ⟨[], env.initMode, 0⟩)))) with hsR
              have hRen : clkEnables sR.trace = [0, 1, 2] := by
                rw [hsR]; simp [emit, clkEnables]
              have hRdis : clkDisables sR.trace = [] := by
                rw [hsR]; simp [emit, clkDisables]
              have hbA : BenignStep sR (rk3308bs_otp_active env sR).2 :=
                active_benign env sR
              by_cases hact : (rk3308bs_otp_active env sR).1 = 0
              · simp only [hact, ne_eq, not_true_eq_false, if_false, ite_false]
                norm_num
                by_cases hal : env.allocOk = false
                · simp only [hal, if_true, ite_true]
                  have hre := read_end_clk env (rk3308bs_otp_active env sR).2
                  have hb := benignStep_clk hbA
                  rw [hre.1, hre.2, hb.1, hb.2, hRen, hRdis]
                  constructor
                  · decide
                  · decide
                · simp only [hal, if_false, ite_false]
                  norm_num
                  rw [ite_trace_eq]
                  set lr22 := (readLoop env
                    ((offset + (if size < offset + bytes then size - offset else bytes)
                        + (RK3308BS_NBYTES - 1)) / RK3308BS_NBYTES
                      - offset / RK3308BS_NBYTES)
                    (offset / RK3308BS_NBYTES + RK3308BS_NO_SECURE_OFFSET)
                    (rk3308bs_otp_active env sR).2).2.2 with hlr22
                  have hbL : BenignStep (rk3308bs_otp_active env sR).2 lr22 := by
                    rw [hlr22]; exact readLoop_benign env _ _ _
                  have hre := read_end_clk env lr22
                  have hb2 := benignStep_clk hbL
                  have hb := benignStep_clk hbA
                  rw [hre.1, hre.2, hb2.1, hb2.2, hb.1, hb.2, hRen, hRdis]
                  constructor
                  · decide
                  · decide
              · simp only [hact, if_false]
                have hrel := release_all_clk (rk3308bs_otp_active env sR).2
                have hb := benignStep_clk hbA
                rw [hrel.1, hrel.2, hb.1, hb.2, hRen, hRdis]
                constructor
                · decide
                · decide
            · -- deassert fails after a successful assert
              refine ⟨3, by norm_num, ?_⟩
              simp only [rk3308bs_otp_read, if_neg hoob, clk_prepare_enable,
                h0, h1, h2, if_false, ite_false, rockchip_otp_reset, hra, hrd,
                ne_eq, not_true_eq_false, not_false_eq_true, if_true, ite_true]
              simp [hrd, release_all, clk_disable_unprepare, emit, clkEnables,
                clkDisables, List.range_succ]
          · -- assert fails: clocks already on, all released
            refine ⟨3, by norm_num, ?_⟩
            simp only [rk3308bs_otp_read, if_neg hoob, clk_prepare_enable,
              h0, h1, h2, if_false, ite_false, rockchip_otp_reset, hra, ne_eq,
              not_false_eq_true, if_true, ite_true]
            simp [hra, release_all, clk_disable_unprepare, emit, clkEnables,
              clkDisables, List.range_succ]

lemma px30_clk_shape (env : OtpEnv) (offset bytes : Nat) :
    ∃ k ≤ 3, clkEnables (px30_otp_read env offset bytes).2.2 = List.range k ∧
      clkDisables (px30_otp_read env offset bytes).2.2 = (List.range k).reverse := by
  by_cases h0 : env.clkRet 0 < 0
  · exact ⟨0, by norm_num,
      by simp [px30_otp_read, clk_prepare_enable, h0, clkEnables],
      by simp [px30_otp_read, clk_prepare_enable, h0, clkDisables]⟩
  · by_cases h1 : env.clkRet 1 < 0
    · exact ⟨1, by norm_num,
        by simp [px30_otp_read, clk_prepare_enable, h0, h1,
          clk_disable_unprepare, emit, clkEnables, List.range_succ],
        by simp [px30_otp_read, clk_prepare_enable, h0, h1,
          clk_disable_unprepare, emit, clkDisables, List.range_succ]⟩
    · by_cases h2 : env.clkRet 2 < 0
      · exact ⟨2, by norm_num,
          by simp [px30_otp_read, clk_prepare_enable, h0, h1, h2,
            release_pclk, clk_disable_unprepare, emit, clkEnables, List.range_succ],
          by simp [px30_otp_read, clk_prepare_enable, h0, h1, h2,
            release_pclk, clk_disable_unprepare, emit, clkDisables, List.range_succ]⟩
      · by_cases hra : env.rstAssertRet = 0
        · by_cases hrd : env.rstDeassertRet = 0
          · refine ⟨3, by norm_num, ?_⟩
            simp only [px30_otp_read, clk_prepare_enable, h0, h1, h2, if_false,
              ite_false, rockchip_otp_reset, hra, hrd, ne_eq, not_true_eq_false,
              not_false_eq_true, if_true, ite_true]
            set sR : OtpState := emit Event.resetDeassert (emit Event.resetAssert
              (emit (Event.clkEnable 2) (emit (Event.clkEnable 1)
                (emit (Event.clkEnable 0) ⟨[], env.initMode, 0⟩)))) with hsR
            have hRen : clkEnables sR.trace = [0, 1, 2] := by
              rw [hsR]; simp [emit, clkEnables]
            have hRdis : clkDisables sR.trace = [] := by
              rw [hsR]; simp [emit, clkDisables]
            have hbE : BenignStep sR (px30_otp_ecc_enable env false sR).2 :=
              ecc_benign env false sR
            by_cases hecc : (px30_otp_ecc_enable env false sR).1 < 0
            · simp only [hecc, if_true, ite_true]
              have hrel := release_all_clk (px30_otp_ecc_enable env false sR).2
              have hb := benignStep_clk hbE
              rw [hrel.1, hrel.2, hb.1, hb.2, hRen, hRdis]
              exact ⟨by decide, by decide⟩
            · simp only [hecc, if_false, ite_false]
              set sU : OtpState := emit (Event.regWrite OTPC_USER_CTRL
                  (OTPC_USE_USER ||| OTPC_USE_USER_MASK))
                (px30_otp_ecc_enable env false sR).2 with hsU
              set sE : OtpState := emit (Event.regWrite OTPC_USER_CTRL OTPC_USE_USER_MASK)
                (px30_read_loop env bytes offset sU).2.2 with hsE
              have hchain : BenignStep sR sE := by
                rw [hsE]
                refine benignStep_trans ?_ (benignStep_emit (by simp [benign]) _)
                refine benignStep_trans ?_ (px30_loop_benign env bytes offset sU)
                rw [hsU]
                exact benignStep_trans hbE (benignStep_emit (by simp [benign]) _)
              have hrel := release_all_clk sE
              have hb := benignStep_clk hchain
              rw [hrel.1, hrel.2, hb.1, hb.2, hRen, hRdis]
              exact ⟨by decide, by decide⟩
          · refine ⟨3, by norm_num, ?_⟩
            simp only [px30_otp_read, clk_prepare_enable, h0, h1, h2, if_false,
              ite_false, rockchip_otp_reset, hra, hrd, ne_eq, not_true_eq_false,
              not_false_eq_true, if_true, ite_true]
            simp [hrd, release_all, clk_disable_unprepare, emit, clkEnables,
              clkDisables, List.range_succ]
        · refine ⟨3, by norm_num, ?_⟩
          simp only [px30_otp_read, clk_prepare_enable, h0, h1, h2, if_false,
            ite_false, rockchip_otp_reset, hra, ne_eq, not_false_eq_true,
            if_true, ite_true]
          simp [hra, release_all, clk_disable_unprepare, emit, clkEnables,
            clkDisables, List.range_succ]

/-- Claim C6: in both read engines the clock domains are enabled in the fixed
order 0 = functional clock, 1 = bus clock, 2 = PHY bus clock (the enables form
`List.range k` for the number k of domains brought up), and on every exit path
the disables are exactly the enables in reverse order — so a failed enable
unwinds every previously enabled domain and no clock domain is ever left
enabled. -/
theorem c6_clock_unwind (env : OtpEnv) (offset bytes size : Nat) :
    (∃ k ≤ 3, clkEnables (rk3308bs_otp_read env offset bytes size).2.2 = List.range k ∧
      clkDisables (rk3308bs_otp_read env offset bytes size).2.2 = (List.range k).reverse) ∧
    (∃ k ≤ 3, clkEnables (px30_otp_read env offset bytes).2.2 = List.range k ∧
      clkDisables (px30_otp_read env offset bytes).2.2 = (List.range k).reverse) :=
  ⟨rk3308bs_clk_shape env offset bytes size, px30_clk_shape env offset bytes⟩

/-! ## Mid-loop timeout behavior -/

lemma readLoop_fail (env : OtpEnv) :
    ∀ (j n a : Nat) (s : OtpState), j < n →
      (∀ k < j, env.poll (s.pollIdx + k) = true) →
      env.poll (s.pollIdx + j) = false →
      (readLoop env n a s).1 < 0 := by
  intro j
  induction j with
  | zero =>
    intro n a s hn _ hf
    obtain ⟨m, rfl⟩ : ∃ m, n = m + 1 := ⟨n - 1, by omega⟩
    simp only [readLoop, waitStep, writeMode, emit]
    simp only [Nat.add_zero] at hf
    simp [hf, ETIMEDOUT]
  | succ j ih =>
    intro n a s hn hb hf
    obtain ⟨m, rfl⟩ : ∃ m, n = m + 1 := ⟨n - 1, by omega⟩
    have h0 : env.poll s.pollIdx = true := by
      have := hb 0 (by omega)
      simpa using this
    simp only [readLoop, waitStep, writeMode, emit, h0, if_true]
    norm_num
    apply ih m (a+1)
    · omega
    · intro k hk
      have := hb (k+1) (by omega)
      simpa [Nat.add_assoc, Nat.add_comm, Nat.add_left_comm] using this
    · simpa [Nat.add_assoc, Nat.add_comm, Nat.add_left_comm] using hf

lemma px30_loop_fail (env : OtpEnv) :
    ∀ (j n off : Nat) (s : OtpState), j < n →
      (∀ k < j, env.poll (s.pollIdx + k) = true) →
      env.poll (s.pollIdx + j) = false →
      (px30_read_loop env n off s).1 < 0 ∧
      (px30_read_loop env n off s).2.1 = px30Bytes env j off := by
  intro j
  induction j with
  | zero =>
    intro n off s hn _ hf
    obtain ⟨m, rfl⟩ : ∃ m, n = m + 1 := ⟨n - 1, by omega⟩
    simp only [Nat.add_zero] at hf
    simp only [px30_read_loop, waitStep, emit]
    simp [hf, ETIMEDOUT, px30Bytes]
  | succ j ih =>
    intro n off s hn hb hf
    obtain ⟨m, rfl⟩ : ∃ m, n = m + 1 := ⟨n - 1, by omega⟩
    have h0 : env.poll s.pollIdx = true := by
      have := hb 0 (by omega)
      simpa using this
    simp only [px30_read_loop, waitStep, emit, h0, if_true]
    norm_num
    have hr := ih m (off+1)
      (s := ⟨(⟨s.trace ++ [Event.regWrite OTPC_USER_ADDR
          (off % 4294967296 ||| OTPC_USER_ADDR_MASK),
        Event.regWrite OTPC_USER_ENABLE
          (OTPC_USER_FSM_ENABLE ||| OTPC_USER_FSM_ENABLE_MASK),
        Event.regWrite OTPC_INT_STATUS OTPC_USER_DONE,
        Event.regRead OTPC_USER_Q], s.mode, s.pollIdx + 1⟩ : OtpState).trace,
        s.mode, s.pollIdx + 1⟩)
      (by omega)
      (by
        intro k hk
        have := hb (k+1) (by omega)
        simpa [Nat.add_assoc, Nat.add_comm, Nat.add_left_comm] using this)
      (by simpa [Nat.add_assoc, Nat.add_comm, Nat.add_left_comm] using hf)
    constructor
    · exact hr.1
    · simp only [px30Bytes]
      rw [hr.2]

lemma active_ok_state2 (env : OtpEnv) (s : OtpState)
    (hm : s.mode = OTPC_DEEP_STANDBY)
    (hp0 : env.poll s.pollIdx = true) (hp1 : env.poll (s.pollIdx + 1) = true) :
    rk3308bs_otp_active env s =
      (0, ⟨s.trace ++
        [Event.modeWrite OTPC_DEEP_STANDBY OTPC_STANDBY,
         Event.regWrite OTPC_IRQ_ST OTPC_DP2STB_IRQ_ST,
         Event.modeWrite OTPC_STANDBY OTPC_ACTIVE,
         Event.regWrite OTPC_IRQ_ST OTPC_STB2ACT_IRQ_ST],
        OTPC_ACTIVE, s.pollIdx + 2⟩) := by
  simp [rk3308bs_otp_active, hm, activeFromStandby, waitStep, writeMode, emit,
    hp0, hp1, OTPC_STANDBY, OTPC_DEEP_STANDBY]

lemma ecc_ok_state2 (env : OtpEnv) (s : OtpState)
    (hp : env.poll s.pollIdx = true) :
    px30_otp_ecc_enable env false s =
      (0, ⟨s.trace ++ eccTraceA, s.mode, s.pollIdx + 1⟩) := by
  simp [px30_otp_ecc_enable, waitStep, emit, hp, eccTraceA]

/-- Claim C9: on a mid-loop poll timeout, variant B returns the error with no
byte copied into the caller's buffer (the scratch content is discarded), while
variant A returns the error with the already-read prefix left in the caller's
buffer; in both variants the clock teardown still runs (all three disables
appear in the trace). -/
theorem c9_partial_result_asymmetry (env : OtpEnv) (offset bytes size j : Nat)
    (hoff : offset < size)
    (hclk : ∀ c, env.clkRet c = 0) (hr1 : env.rstAssertRet = 0)
    (hr2 : env.rstDeassertRet = 0) (halloc : env.allocOk = true)
    (hmode : env.initMode = OTPC_DEEP_STANDBY)
    (hp0 : env.poll 0 = true) (hp1 : env.poll 1 = true)
    (hj : j < (offset + min bytes (size - offset) + 3) / 4 - offset / 4)
    (hjb : ∀ k < j, env.poll (2 + k) = true) (hjf : env.poll (2 + j) = false) :
    ((rk3308bs_otp_read env offset bytes size).1 < 0 ∧
     (rk3308bs_otp_read env offset bytes size).2.1 = [] ∧
     Event.clkDisable 0 ∈ (rk3308bs_otp_read env offset bytes size).2.2 ∧
     Event.clkDisable 1 ∈ (rk3308bs_otp_read env offset bytes size).2.2 ∧
     Event.clkDisable 2 ∈ (rk3308bs_otp_read env offset bytes size).2.2) ∧
    (∀ (env2 : OtpEnv) (offset2 bytes2 j2 : Nat),
      (∀ c, env2.clkRet c = 0) → env2.rstAssertRet = 0 → env2.rstDeassertRet = 0 →
      env2.poll 0 = true → j2 < bytes2 →
      (∀ k < j2, env2.poll (1 + k) = true) → env2.poll (1 + j2) = false →
      offset2 + bytes2 ≤ 65536 →
      (px30_otp_read env2 offset2 bytes2).1 < 0 ∧
      (px30_otp_read env2 offset2 bytes2).2.1 =
        (List.range j2).map (fun i => env2.byteAt (offset2 + i)) ∧
      Event.clkDisable 0 ∈ (px30_otp_read env2 offset2 bytes2).2.2 ∧
      Event.clkDisable 1 ∈ (px30_otp_read env2 offset2 bytes2).2.2 ∧
      Event.clkDisable 2 ∈ (px30_otp_read env2 offset2 bytes2).2.2) := by
  constructor
  · have hle : ¬ size ≤ offset := by omega
    simp only [rk3308bs_otp_read, hle, if_false, ite_false, clk_prepare_enable,
      hclk, rockchip_otp_reset, hr1, hr2, ne_eq, not_true_eq_false,
      not_false_eq_true, if_true, ite_true]
    norm_num
    rw [active_ok_state2 env _ (by simp [emit, hmode]) (by simpa [emit] using hp0)
      (by simpa [emit] using hp1)]
    norm_num [halloc, emit]
    have hfail := readLoop_fail env j
      ((offset + (if size < offset + bytes then size - offset else bytes)
          + (RK3308BS_NBYTES - 1)) / RK3308BS_NBYTES - offset / RK3308BS_NBYTES)
      (offset / RK3308BS_NBYTES + RK3308BS_NO_SECURE_OFFSET)
      ⟨[Event.clkEnable 0, Event.clkEnable 1, Event.clkEnable 2,
        Event.resetAssert, Event.resetDeassert,
        Event.modeWrite OTPC_DEEP_STANDBY OTPC_STANDBY,
        Event.regWrite OTPC_IRQ_ST OTPC_DP2STB_IRQ_ST,
        Event.modeWrite OTPC_STANDBY OTPC_ACTIVE,
        Event.regWrite OTPC_IRQ_ST OTPC_STB2ACT_IRQ_ST], OTPC_ACTIVE, 2⟩
      (by
        simp only [RK3308BS_NBYTES]
        have hmin : min bytes (size - offset) =
            (if size < offset + bytes then size - offset else bytes) := by
          by_cases hc : size < offset + bytes <;> simp [hc] <;> omega
        rw [hmin] at hj
        omega)
      (by simpa using hjb)
      (by simpa using hjf)
    rw [if_pos hfail]
    refine ⟨hfail, rfl, ?_, ?_, ?_⟩ <;>
      simp [read_end, release_all_trace, clk_disable_unprepare, emit]
  · intro env2 offset2 bytes2 j2 hclk2 h21 h22 h2p0 h2j h2jb h2jf hbound2
    simp only [px30_otp_read, clk_prepare_enable, hclk2, rockchip_otp_reset,
      h21, h22, ne_eq, not_true_eq_false, not_false_eq_true, if_true, ite_true,
      if_false, ite_false]
    norm_num
    rw [ecc_ok_state2 env2 _ (by simpa [emit] using h2p0)]
    norm_num
    have hfail := px30_loop_fail env2 j2 bytes2 offset2
      ⟨([Event.clkEnable 0, Event.clkEnable 1, Event.clkEnable 2,
         Event.resetAssert, Event.resetDeassert] ++ eccTraceA) ++
        [Event.regWrite OTPC_USER_CTRL (OTPC_USE_USER ||| OTPC_USE_USER_MASK)],
        env2.initMode, 1⟩
      h2j (by simpa using h2jb) (by simpa using h2jf)
    refine ⟨?_, ?_, ?_, ?_, ?_⟩
    · exact hfail.1
    · refine Eq.trans ?_ (px30Bytes_eq_map env2 j2 offset2 (by omega))
      exact hfail.2
    all_goals simp [release_all_trace, clk_disable_unprepare, emit]

/-- Witness for C9: variant B fails with the first word poll and delivers
nothing; variant A fails at the second byte and leaves the one-byte prefix. -/
theorem c9_partial_result_asymmetry_witness :
    ((rk3308bs_otp_read envB9 0 8 128).1 < 0 ∧
     (rk3308bs_otp_read envB9 0 8 128).2.1 = []) ∧
    ((px30_otp_read envA9 0 3).1 < 0 ∧
     (px30_otp_read envA9 0 3).2.1 =
       (List.range 1).map (fun i => envA9.byteAt (0 + i))) := by
  have h := c9_partial_result_asymmetry envB9 0 8 128 0 (by norm_num)
    (fun _ => rfl) rfl rfl rfl rfl rfl rfl (by norm_num)
    (fun k hk => absurd hk (by omega)) rfl
  have h2 := h.2 envA9 0 3 1 (fun _ => rfl) rfl rfl rfl (by norm_num)
    (fun k hk => by
      have hk0 : k = 0 := by omega
      subst hk0
      rfl) rfl (by norm_num)
  exact ⟨⟨h.1.1, h.1.2.1⟩, ⟨h2.1, h2.2.1⟩⟩

/-! ## Mode-transition ordering (claim C5) -/

lemma readLoop_any_state (env : OtpEnv) :
    ∀ (n a : Nat) (s : OtpState), s.mode = OTPC_ACTIVE →
      (readLoop env n a s).2.2.trace = s.trace ++ loopTraceAny env n a s.pollIdx ∧
      ((readLoop env n a s).2.2.mode = OTPC_ACTIVE ∨
       (readLoop env n a s).2.2.mode = OTPC_READ_ACCESS) := by
  intro n
  induction n with
  | zero =>
    intro a s hm
    exact ⟨by simp [readLoop, loopTraceAny], Or.inl (by simp [readLoop, hm])⟩
  | succ m ih =>
    intro a s hm
    by_cases hp : env.poll s.pollIdx
    · constructor
      · simp only [readLoop, waitStep, writeMode, emit, hp, if_true, loopTraceAny]
        norm_num
        rw [(ih (a+1) _ rfl).1]
        simp [emit, writeMode, hm]
      · simp only [readLoop, waitStep, writeMode, emit, hp, if_true]
        norm_num
        exact (ih (a+1) _ rfl).2
    · constructor
      · simp only [readLoop, waitStep, writeMode, emit, hp, if_false, loopTraceAny]
        norm_num [ETIMEDOUT, hm]
      · right
        simp only [readLoop, waitStep, writeMode, emit, hp, if_false]
        norm_num [ETIMEDOUT]

lemma standbyFS_any_state (env : OtpEnv) (s : OtpState) (hm : s.mode = OTPC_STANDBY) :
    (standbyFromStandby env s).2.trace =
      s.trace ++ ([Event.modeWrite OTPC_STANDBY OTPC_DEEP_STANDBY] ++
        (if env.poll s.pollIdx
         then [Event.regWrite OTPC_IRQ_ST OTPC_STB2DP_IRQ_ST] else [])) := by
  by_cases hp : env.poll s.pollIdx
  · simp [standbyFromStandby, waitStep, writeMode, emit, hp, hm]
  · simp [standbyFromStandby, waitStep, writeMode, emit, hp, hm, ETIMEDOUT]

lemma standby_any_state (env : OtpEnv) (s : OtpState) :
    (rk3308bs_otp_standby env s).2.trace =
      s.trace ++ standbyTraceAny env s.mode s.pollIdx := by
  by_cases h0 : s.mode = OTPC_ACTIVE
  · by_cases hp : env.poll s.pollIdx
    · have hfs := standbyFS_any_state env
        (waitStep env OTPC_IRQ_ST OTPC_ACT2STB_IRQ_ST (writeMode OTPC_STANDBY s)).2
        (by simp [waitStep, writeMode, emit, hp])
      simp only [rk3308bs_otp_standby, h0, if_true, ite_true]
      have hnlt : ¬ (waitStep env OTPC_IRQ_ST OTPC_ACT2STB_IRQ_ST
          (writeMode OTPC_STANDBY s)).1 < 0 := by
        simp [waitStep, writeMode, emit, hp]
      rw [if_neg hnlt]
      rw [hfs]
      simp [waitStep, writeMode, emit, hp, standbyTraceAny, h0, OTPC_STANDBY, OTPC_ACTIVE]
    · have hlt : (waitStep env OTPC_IRQ_ST OTPC_ACT2STB_IRQ_ST
          (writeMode OTPC_STANDBY s)).1 < 0 := by
        simp [waitStep, writeMode, emit, hp, ETIMEDOUT]
      simp only [rk3308bs_otp_standby, h0, if_true, ite_true]
      rw [if_pos hlt]
      simp [waitStep, writeMode, emit, hp, standbyTraceAny, h0]
  · by_cases h1 : s.mode = OTPC_STANDBY
    · have he : (rk3308bs_otp_standby env s).2 = (standbyFromStandby env s).2 := by
        simp [rk3308bs_otp_standby, h0, h1, OTPC_STANDBY, OTPC_ACTIVE]
      rw [he, standbyFS_any_state env s h1]
      simp [standbyTraceAny, h0, h1, OTPC_STANDBY, OTPC_ACTIVE]
    · simp [rk3308bs_otp_standby, h0, h1, standbyTraceAny]

lemma loopTraceAny_no_clk (env : OtpEnv) :
    ∀ (n a q c : Nat), Event.clkDisable c ∉ loopTraceAny env n a q := by
  intro n
  induction n with
  | zero => intro a q c; simp [loopTraceAny]
  | succ m ih =>
    intro a q c
    simp only [loopTraceAny]
    by_cases hp : env.poll q <;> simp [hp, ih (a+1) (q+1) c]

lemma loopTraceAny_mw (env : OtpEnv) :
    ∀ (n a q p v : Nat), Event.modeWrite p v ∈ loopTraceAny env n a q →
      p = OTPC_ACTIVE ∧ v = OTPC_READ_ACCESS := by
  intro n
  induction n with
  | zero => intro a q p v h; simp [loopTraceAny] at h
  | succ m ih =>
    intro a q p v h
    simp only [loopTraceAny] at h
    by_cases hp : env.poll q
    · simp [hp] at h
      rcases h with ⟨h1, h2⟩ | h
      · exact ⟨h1, h2⟩
      · exact ih (a+1) (q+1) p v h
    · simp [hp] at h
      exact ⟨h.1, h.2⟩

lemma standbyTraceAny_no_clk (env : OtpEnv) (m q c : Nat) :
    Event.clkDisable c ∉ standbyTraceAny env m q := by
  simp only [standbyTraceAny]
  split_ifs <;> simp

lemma standbyTraceAny_mw (env : OtpEnv) (m q p v : Nat)
    (h : Event.modeWrite p v ∈ standbyTraceAny env m q) :
    v = OTPC_STANDBY ∨ v = OTPC_DEEP_STANDBY := by
  simp only [standbyTraceAny] at h
  split_ifs at h <;> simp at h <;> tauto

lemma active_ok_state1 (env : OtpEnv) (s : OtpState)
    (hm : s.mode = OTPC_STANDBY) (hp : env.poll s.pollIdx = true) :
    rk3308bs_otp_active env s =
      (0, ⟨s.trace ++
        [Event.modeWrite OTPC_STANDBY OTPC_ACTIVE,
         Event.regWrite OTPC_IRQ_ST OTPC_STB2ACT_IRQ_ST],
        OTPC_ACTIVE, s.pollIdx + 1⟩) := by
  simp [rk3308bs_otp_active, hm, activeFromStandby, waitStep, writeMode, emit, hp,
    OTPC_STANDBY, OTPC_DEEP_STANDBY]

lemma active_ok_state_id (env : OtpEnv) (s : OtpState) (hm : s.mode = OTPC_ACTIVE) :
    rk3308bs_otp_active env s = (0, s) := by
  simp [rk3308bs_otp_active, hm, OTPC_STANDBY, OTPC_DEEP_STANDBY, OTPC_ACTIVE]

lemma c5_tail (env : OtpEnv) (n a : Nat) (s : OtpState) (hm : s.mode = OTPC_ACTIVE)
    (hnd : ∀ c, Event.clkDisable c ∉ s.trace)
    (hmw : ∀ p v, Event.modeWrite p v ∈ s.trace → v = OTPC_READ_ACCESS → p = OTPC_ACTIVE) :
    (∀ p v, Event.modeWrite p v ∈ (read_end env (readLoop env n a s).2.2).trace →
        v = OTPC_READ_ACCESS → p = OTPC_ACTIVE) ∧
    ∃ t, (read_end env (readLoop env n a s).2.2).trace =
        t ++ [Event.clkDisable 2, Event.clkDisable 1, Event.clkDisable 0] ∧
      (∀ c, Event.clkDisable c ∉ t) ∧
      ((∀ k, env.poll k = true) →
        Event.modeWrite OTPC_STANDBY OTPC_DEEP_STANDBY ∈ t) := by
  obtain ⟨hLtr, hLmode⟩ := readLoop_any_state env n a s hm
  have htr : (read_end env (readLoop env n a s).2.2).trace =
      ((s.trace ++ loopTraceAny env n a s.pollIdx) ++
        standbyTraceAny env (readLoop env n a s).2.2.mode
          (readLoop env n a s).2.2.pollIdx)
      ++ [Event.clkDisable 2, Event.clkDisable 1, Event.clkDisable 0] := by
    rw [read_end, release_all_trace, standby_any_state, hLtr]
  constructor
  · intro p v hv h3
    rw [htr] at hv
    rcases List.mem_append.mp hv with hv | hv
    · rcases List.mem_append.mp hv with hv | hv
      · rcases List.mem_append.mp hv with hv | hv
        · exact hmw p v hv h3
        · exact (loopTraceAny_mw env n a s.pollIdx p v hv).1
      · have hval := standbyTraceAny_mw env _ _ p v hv
        subst h3
        rcases hval with h | h <;>
          simp [OTPC_READ_ACCESS, OTPC_STANDBY, OTPC_DEEP_STANDBY] at h
    · simp at hv
  · refine ⟨(s.trace ++ loopTraceAny env n a s.pollIdx) ++
      standbyTraceAny env (readLoop env n a s).2.2.mode
        (readLoop env n a s).2.2.pollIdx, htr, ?_, ?_⟩
    · intro c hc
      rcases List.mem_append.mp hc with hc | hc
      · rcases List.mem_append.mp hc with hc | hc
        · exact hnd c hc
        · exact loopTraceAny_no_clk env n a s.pollIdx c hc
      · exact standbyTraceAny_no_clk env _ _ c hc
    · intro hall
      have hLok := readLoop_ok_state env hall n a s hm
      apply List.mem_append_right
      rw [hLok]
      simp [standbyTraceAny, hall]

/-- Counterexample to claim C5 as stated: when the deep-standby→standby wait
times out, the read fails, the clocks are released, yet no deep-standby value
is ever written to the mode-control register — the controller is left in
standby, not driven back to deep-standby before resource release. -/
theorem c5_counterexample :
    (rk3308bs_otp_read envBad5 0 4 128).1 < 0 ∧
    Event.clkDisable 0 ∈ (rk3308bs_otp_read envBad5 0 4 128).2.2 ∧
    OTPC_DEEP_STANDBY ∉ modeWriteValues (rk3308bs_otp_read envBad5 0 4 128).2.2 := by
  decide

lemma activeFS_any_state (env : OtpEnv) (s : OtpState) (hm : s.mode = OTPC_STANDBY) :
    (activeFromStandby env s).2.trace =
      s.trace ++ ([Event.modeWrite OTPC_STANDBY OTPC_ACTIVE] ++
        (if env.poll s.pollIdx
         then [Event.regWrite OTPC_IRQ_ST OTPC_STB2ACT_IRQ_ST] else [])) := by
  by_cases hp : env.poll s.pollIdx
  · simp [activeFromStandby, waitStep, writeMode, emit, hp, hm]
  · simp [activeFromStandby, waitStep, writeMode, emit, hp, hm, ETIMEDOUT]

lemma active_any_state (env : OtpEnv) (s : OtpState) :
    (rk3308bs_otp_active env s).2.trace =
      s.trace ++ activeTraceAny env s.mode s.pollIdx := by
  by_cases h0 : s.mode = OTPC_DEEP_STANDBY
  · by_cases hp : env.poll s.pollIdx
    · have hfs := activeFS_any_state env
        (waitStep env OTPC_IRQ_ST OTPC_DP2STB_IRQ_ST (writeMode OTPC_STANDBY s)).2
        (by simp [waitStep, writeMode, emit, hp])
      simp only [rk3308bs_otp_active, h0, if_true, ite_true]
      have hnlt : ¬ (waitStep env OTPC_IRQ_ST OTPC_DP2STB_IRQ_ST
          (writeMode OTPC_STANDBY s)).1 < 0 := by
        simp [waitStep, writeMode, emit, hp]
      rw [if_neg hnlt]
      rw [hfs]
      simp [waitStep, writeMode, emit, hp, activeTraceAny, h0]
    · have hlt : (waitStep env OTPC_IRQ_ST OTPC_DP2STB_IRQ_ST
          (writeMode OTPC_STANDBY s)).1 < 0 := by
        simp [waitStep, writeMode, emit, hp, ETIMEDOUT]
      simp only [rk3308bs_otp_active, h0, if_true, ite_true]
      rw [if_pos hlt]
      simp [waitStep, writeMode, emit, hp, activeTraceAny, h0]
  · by_cases h1 : s.mode = OTPC_STANDBY
    · have he : (rk3308bs_otp_active env s).2 = (activeFromStandby env s).2 := by
        simp [rk3308bs_otp_active, h0, h1, OTPC_STANDBY, OTPC_DEEP_STANDBY]
      rw [he, activeFS_any_state env s h1]
      simp [activeTraceAny, h0, h1, OTPC_STANDBY, OTPC_DEEP_STANDBY]
    · simp [rk3308bs_otp_active, h0, h1, activeTraceAny]

lemma activeTraceAny_no_clk (env : OtpEnv) (m q c : Nat) :
    Event.clkDisable c ∉ activeTraceAny env m q := by
  simp only [activeTraceAny]
  split_ifs <;> simp

lemma activeTraceAny_mw (env : OtpEnv) (m q p v : Nat)
    (h : Event.modeWrite p v ∈ activeTraceAny env m q) :
    v = OTPC_STANDBY ∨ v = OTPC_ACTIVE := by
  simp only [activeTraceAny] at h
  split_ifs at h <;> simp at h <;> tauto

lemma active_any_mode (env : OtpEnv) (s : OtpState) (hm : s.mode < 3)
    (h0 : (rk3308bs_otp_active env s).1 = 0) :
    (rk3308bs_otp_active env s).2.mode = OTPC_ACTIVE := by
  have hcase : s.mode = 0 ∨ s.mode = 1 ∨ s.mode = 2 := by omega
  rcases hcase with hc | hc | hc
  · by_cases hp : env.poll s.pollIdx
    · by_cases hp2 : env.poll (s.pollIdx + 1) <;>
        simp [rk3308bs_otp_active, hc, activeFromStandby, waitStep, writeMode,
          emit, hp, hp2, OTPC_DEEP_STANDBY, OTPC_STANDBY, ETIMEDOUT]
    · simp [rk3308bs_otp_active, hc, waitStep, writeMode, emit, hp,
        OTPC_DEEP_STANDBY, ETIMEDOUT] at h0
  · by_cases hp : env.poll s.pollIdx <;>
      simp [rk3308bs_otp_active, hc, activeFromStandby, waitStep, writeMode,
        emit, hp, OTPC_DEEP_STANDBY, OTPC_STANDBY, ETIMEDOUT]
  · simp [rk3308bs_otp_active, hc, OTPC_DEEP_STANDBY, OTPC_STANDBY, OTPC_ACTIVE, hc]

/-- In every variant B execution entered with the mode register holding one of
the three power modes, a read-access transition is only ever written while the
register holds active — over arbitrary clock, reset, poll and allocation
outcomes. -/
lemma rk3308bs_mw_shape (env : OtpEnv) (offset bytes size : Nat)
    (hm3 : env.initMode < 3) :
    ∀ p v, Event.modeWrite p v ∈ (rk3308bs_otp_read env offset bytes size).2.2 →
      v = OTPC_READ_ACCESS → p = OTPC_ACTIVE := by
  intro p v hv h3
  by_cases hoob : size ≤ offset
  · simp [rk3308bs_otp_read, hoob] at hv
  · by_cases h0 : env.clkRet 0 < 0
    · simp [rk3308bs_otp_read, hoob, clk_prepare_enable, h0] at hv
    · by_cases h1 : env.clkRet 1 < 0
      · simp [rk3308bs_otp_read, hoob, clk_prepare_enable, h0, h1,
          clk_disable_unprepare, emit] at hv
      · by_cases h2 : env.clkRet 2 < 0
        · simp [rk3308bs_otp_read, hoob, clk_prepare_enable, h0, h1, h2,
            release_pclk, clk_disable_unprepare, emit] at hv
        · by_cases hra : env.rstAssertRet = 0
          · by_cases hrd : env.rstDeassertRet = 0
            · simp only [rk3308bs_otp_read, hoob, if_neg hoob, clk_prepare_enable,
                h0, h1, h2, if_false, ite_false, rockchip_otp_reset, hra, hrd,
                ne_eq, not_true_eq_false, not_false_eq_true, if_true, ite_true] at hv
              norm_num at hv
              set sR : OtpState := emit Event.resetDeassert (emit Event.resetAssert
                (emit (Event.clkEnable 2) (emit (Event.clkEnable 1)
                  (emit (Event.clkEnable 0) ⟨[], env.initMode, 0⟩)))) with hsR
              have hsRm : sR.mode < 3 := by rw [hsR]; simpa [emit] using hm3
              by_cases hact : (rk3308bs_otp_active env sR).1 = 0
              · have hAm : (rk3308bs_otp_active env sR).2.mode = OTPC_ACTIVE :=
                  active_any_mode env sR hsRm hact
                have hnd : ∀ c,
                    Event.clkDisable c ∉ (rk3308bs_otp_active env sR).2.trace := by
                  intro c hc
                  rw [active_any_state] at hc
                  rcases List.mem_append.mp hc with hc | hc
                  · rw [hsR] at hc; simp [emit] at hc
                  · exact activeTraceAny_no_clk env _ _ c hc
                have hmw : ∀ p2 v2,
                    Event.modeWrite p2 v2 ∈ (rk3308bs_otp_active env sR).2.trace →
                      v2 = OTPC_READ_ACCESS → p2 = OTPC_ACTIVE := by
                  intro p2 v2 hm2 h32
                  rw [active_any_state] at hm2
                  rcases List.mem_append.mp hm2 with hc | hc
                  · rw [hsR] at hc; simp [emit] at hc
                  · have hval := activeTraceAny_mw env _ _ p2 v2 hc
                    subst h32
                    rcases hval with h | h <;>
                      simp [OTPC_READ_ACCESS, OTPC_STANDBY, OTPC_ACTIVE] at h
                simp only [hact, ne_eq, not_true_eq_false, if_false, ite_false] at hv
                norm_num at hv
                by_cases hal : env.allocOk = false
                · simp only [hal, if_true, ite_true] at hv
                  exact (c5_tail env 0 0 _ hAm hnd hmw).1 p v hv h3
                · simp only [hal, if_false, ite_false] at hv
                  norm_num at hv
                  rw [ite_trace_eq] at hv
                  exact (c5_tail env _ _ _ hAm hnd hmw).1 p v hv h3
              · simp only [hact, if_false] at hv
                rw [release_all_trace, active_any_state] at hv
                rcases List.mem_append.mp hv with hc | hc
                · rcases List.mem_append.mp hc with hc | hc
                  · rw [hsR] at hc; simp [emit] at hc
                  · have hval := activeTraceAny_mw env _ _ p v hc
                    subst h3
                    rcases hval with h | h <;>
                      simp [OTPC_READ_ACCESS, OTPC_STANDBY, OTPC_ACTIVE] at h
                · simp at hc
            · simp [rk3308bs_otp_read, hoob, clk_prepare_enable, h0, h1, h2,
                rockchip_otp_reset, hra, hrd, release_all,
                clk_disable_unprepare, emit] at hv
          · simp [rk3308bs_otp_read, hoob, clk_prepare_enable, h0, h1, h2,
              rockchip_otp_reset, hra, release_all,
              clk_disable_unprepare, emit] at hv

/-- Claim C5 (amended): in every variant B read execution entered with the
mode-control register holding one of the three power modes (deep-standby,
standby or active): (1) every read-access transition is written while the
register holds active — over arbitrary clock, reset, poll and allocation
outcomes; and (2) whenever the execution reaches the read loop (offset in
bounds; clocks, reset, the activation status waits and the scratch allocation
all succeed — the loop's own waits left arbitrary), the three clock-disable
events are the final events of the trace, preceded by the standby walk-down
attempt, and when every status wait of the execution succeeds the
standby→deep-standby transition is written before any clock is released.
(When the read fails before the mode machine reaches active the clocks are
released without any deep-standby write, as the counterexample shows.) -/
theorem c5_amended_mode_order (env : OtpEnv) (offset bytes size : Nat)
    (hm3 : env.initMode < 3) :
    (∀ p v, Event.modeWrite p v ∈ (rk3308bs_otp_read env offset bytes size).2.2 →
        v = OTPC_READ_ACCESS → p = OTPC_ACTIVE) ∧
    (offset < size → (∀ c, env.clkRet c = 0) → env.rstAssertRet = 0 →
     env.rstDeassertRet = 0 →
     (∀ k, k < activePolls env.initMode → env.poll k = true) →
     env.allocOk = true →
     ∃ t, (rk3308bs_otp_read env offset bytes size).2.2 =
         t ++ [Event.clkDisable 2, Event.clkDisable 1, Event.clkDisable 0] ∧
       (∀ c, Event.clkDisable c ∉ t) ∧
       ((∀ k, env.poll k = true) →
         Event.modeWrite OTPC_STANDBY OTPC_DEEP_STANDBY ∈ t)) := by
  refine ⟨rk3308bs_mw_shape env offset bytes size hm3, ?_⟩
  intro hoff hclk hr1 hr2 hact halloc
  have hle : ¬ size ≤ offset := by omega
  have hcase : env.initMode = 0 ∨ env.initMode = 1 ∨ env.initMode = 2 := by omega
  rcases hcase with hm | hm | hm
  · have hp0 : env.poll 0 = true := hact 0
      (by rw [hm]; norm_num [activePolls, OTPC_DEEP_STANDBY, OTPC_STANDBY])
    have hp1 : env.poll 1 = true := hact 1
      (by rw [hm]; norm_num [activePolls, OTPC_DEEP_STANDBY, OTPC_STANDBY])
    simp only [rk3308bs_otp_read, hle, if_false, ite_false, clk_prepare_enable,
      hclk, rockchip_otp_reset, hr1, hr2, ne_eq, not_true_eq_false,
      not_false_eq_true, if_true, ite_true]
    norm_num
    rw [active_ok_state2 env _ (by simp [emit, hm, OTPC_DEEP_STANDBY])
      (by simpa [emit] using hp0) (by simpa [emit] using hp1)]
    norm_num [halloc, emit]
    rw [ite_trace_eq]
    exact (c5_tail env _ _ _ rfl
      (by intro c hc; simp at hc)
      (by
        intro p v hv h3
        simp [OTPC_READ_ACCESS, OTPC_DEEP_STANDBY, OTPC_STANDBY, OTPC_ACTIVE] at hv h3
        omega)).2
  · have hp0 : env.poll 0 = true := hact 0
      (by rw [hm]; norm_num [activePolls, OTPC_DEEP_STANDBY, OTPC_STANDBY])
    simp only [rk3308bs_otp_read, hle, if_false, ite_false, clk_prepare_enable,
      hclk, rockchip_otp_reset, hr1, hr2, ne_eq, not_true_eq_false,
      not_false_eq_true, if_true, ite_true]
    norm_num
    rw [active_ok_state1 env _ (by simp [emit, hm, OTPC_STANDBY])
      (by simpa [emit] using hp0)]
    norm_num [halloc, emit]
    rw [ite_trace_eq]
    exact (c5_tail env _ _ _ rfl
      (by intro c hc; simp at hc)
      (by
        intro p v hv h3
        simp [OTPC_READ_ACCESS, OTPC_DEEP_STANDBY, OTPC_STANDBY, OTPC_ACTIVE] at hv h3
        omega)).2
  · simp only [rk3308bs_otp_read, hle, if_false, ite_false, clk_prepare_enable,
      hclk, rockchip_otp_reset, hr1, hr2, ne_eq, not_true_eq_false,
      not_false_eq_true, if_true, ite_true]
    norm_num
    rw [active_ok_state_id env _ (by simp [emit, hm, OTPC_ACTIVE])]
    norm_num [halloc, emit]
    rw [ite_trace_eq]
    exact (c5_tail env _ _ _ (by simp [emit, hm, OTPC_ACTIVE])
      (by intro c hc; simp at hc)
      (by
        intro p v hv h3
        simp at hv)).2

/-- Witness for the amended C5 at the all-success oracle, with the
loop-reaching side conditions discharged concretely. -/
theorem c5_amended_mode_order_witness :
    (∀ p v, Event.modeWrite p v ∈ (rk3308bs_otp_read envAllOk 0 4 128).2.2 →
        v = OTPC_READ_ACCESS → p = OTPC_ACTIVE) ∧
    ∃ t, (rk3308bs_otp_read envAllOk 0 4 128).2.2 =
        t ++ [Event.clkDisable 2, Event.clkDisable 1, Event.clkDisable 0] ∧
      (∀ c, Event.clkDisable c ∉ t) ∧
      ((∀ k, envAllOk.poll k = true) →
        Event.modeWrite OTPC_STANDBY OTPC_DEEP_STANDBY ∈ t) := by
  have h := c5_amended_mode_order envAllOk 0 4 128 (by norm_num [envAllOk])
  exact ⟨h.1, h.2 (by norm_num) (fun _ => rfl) rfl rfl (fun k _ => rfl) rfl⟩
